import Mathlib

/-!
Verification development for the multi-drone mission planner.

The embedding follows the multi-drone mission control implementation
(src/MULTI_DRONE_IMPLEMENTATION.md, second component, lines 798-1478) and the
fleet coordinator (src/contexts/DroneContext.tsx).  JavaScript numbers are
modelled as real numbers; JavaScript Map objects as association lists with
Map-like get and set; the external updateRequestStatus side effect as a list
of emitted task ids.
-/

namespace MissionPlanner

/-- GCS constants, source lines 818-821. -/
def SIM_SPEED_MULT : ℝ := 4

def DEFAULT_ALT : ℝ := 100

def WP_RADIUS : ℝ := 15

def RTL_ALT : ℝ := 50

/-- Flight modes, source line 833. -/
inductive FlightMode
  | STABILIZE | LOITER | AUTO | RTL | GUIDED | LAND
  deriving DecidableEq, Repr

/-- Coarse lifecycle status of a drone, src/types.ts. -/
inductive DroneStatus
  | idle | dispatched | running | completed | returning
  deriving DecidableEq, Repr

/-- Waypoint commands, src/types.ts enum MavCmd. -/
inductive MavCmd
  | NAV_TAKEOFF | NAV_WAYPOINT | NAV_LOITER_TIME | NAV_RETURN_TO_LAUNCH | NAV_LAND
  deriving DecidableEq, Repr

/-- Telemetry status enum, src/types.ts enum DroneState. -/
inductive DroneState
  | OFF | BOOTING | IDLE | ARMED | TAKEOFF | ENROUTE | HOVER | RETURNING | LANDING | EMERGENCY
  deriving DecidableEq, Repr

structure Location where
  lat : ℝ
  lng : ℝ

/-- One route element, src/types.ts interface MissionItem (the optional
parameters p1-p4 are never read by the embedded code). -/
structure MissionItem where
  seq : ℕ
  command : MavCmd
  lat : ℝ
  lng : ℝ
  alt : ℝ

/-- The external mission request; only the id field is read by the embedded
operations (assignTaskToDrone stores task.id). -/
structure MedicineRequest where
  id : String

/-- Telemetry snapshot, src/types.ts interface DroneTelemetry. -/
structure DroneTelemetry where
  latitude : ℝ
  longitude : ℝ
  altitude : ℝ
  speed : ℝ
  verticalSpeed : ℝ
  battery : ℝ
  bearing : ℝ
  distanceTraveled : ℝ
  distanceRemaining : ℝ
  status : DroneState
  connectionStrength : ℝ
  satellites : ℕ
  flightTime : ℝ

/-- Fleet coordinator record for one drone, src/types.ts interface Drone. -/
structure Drone where
  id : String
  name : String
  status : DroneStatus
  currentLocation : Location
  assignedTaskId : Option String
  assignedRoute : Option (List MissionItem)
  homeLocation : Location
  color : String
  telemetry : DroneTelemetry

/-- Per-drone physics state, source lines 836-855. -/
structure DronePhysics where
  lat : ℝ
  lng : ℝ
  alt : ℝ
  heading : ℝ
  speed : ℝ
  vSpeed : ℝ
  roll : ℝ
  pitch : ℝ
  battery_v : ℝ
  battery_rem : ℝ
  wind_dir : ℝ
  wind_spd : ℝ
  lastTick : ℝ
  armed : Bool
  flightMode : FlightMode
  activeWpIndex : ℤ
  homeLocation : Location
  deliveryWaitTime : ℝ
  isReturningHome : Bool

/-! ## Fleet coordinator (src/contexts/DroneContext.tsx)

The React state Map of drones is modelled as an association list with the
JavaScript Map get and set semantics. -/

def DroneMap := List (String × Drone)

def mapGet : List (String × Drone) → String → Option Drone
  | [], _ => none
  | (k, v) :: rest, key => if k = key then some v else mapGet rest key

def mapSet : List (String × Drone) → String → Drone → List (String × Drone)
  | [], key, v => [(key, v)]
  | (k, w) :: rest, key, v => if k = key then (key, v) :: rest else (k, w) :: mapSet rest key v

/-- assignTaskToDrone, DroneContext.tsx lines 82-96: sets status dispatched and
stores the task id and route on the drone if it exists; no status check is
performed. -/
def assignTaskToDrone (m : List (String × Drone)) (droneId : String)
    (task : MedicineRequest) (route : List MissionItem) : List (String × Drone) :=
  match mapGet m droneId with
  | none => m
  | some drone =>
      mapSet m droneId
        { drone with
          status := DroneStatus.dispatched
          assignedTaskId := some task.id
          assignedRoute := some route }

/-- updateDroneStatus, DroneContext.tsx lines 99-111. -/
def updateDroneStatus (m : List (String × Drone)) (droneId : String)
    (status : DroneStatus) : List (String × Drone) :=
  match mapGet m droneId with
  | none => m
  | some drone => mapSet m droneId { drone with status := status }

/-- updateDroneRoute, DroneContext.tsx lines 147-159. -/
def updateDroneRoute (m : List (String × Drone)) (droneId : String)
    (route : List MissionItem) : List (String × Drone) :=
  match mapGet m droneId with
  | none => m
  | some drone => mapSet m droneId { drone with assignedRoute := some route }

/-- The record transformation done by completeDroneTask, DroneContext.tsx
lines 162-177: status idle, task and route cleared, location reset to home. -/
def applyCompleteDroneTask (drone : Drone) : Drone :=
  { drone with
    status := DroneStatus.idle
    assignedTaskId := none
    assignedRoute := none
    currentLocation := drone.homeLocation }

/-- completeDroneTask, DroneContext.tsx lines 162-177. -/
def completeDroneTask (m : List (String × Drone)) (droneId : String) :
    List (String × Drone) :=
  match mapGet m droneId with
  | none => m
  | some drone => mapSet m droneId (applyCompleteDroneTask drone)

/-- getAvailableDrone, DroneContext.tsx lines 72-79: first idle drone. -/
def getAvailableDrone : List (String × Drone) → Option Drone
  | [] => none
  | (_, d) :: rest => if d.status = DroneStatus.idle then some d else getAvailableDrone rest

/-! ## Numeric helpers

JavaScript Math functions over real numbers.  Real number comparisons are
classically decidable, so these definitions are noncomputable; all concrete
evaluations in the theorems below go through simp and norm_num. -/

noncomputable section

/-- Degrees to radians, source line 897. -/
def toRad (d : ℝ) : ℝ := d * Real.pi / 180

/-- Radians to degrees, source line 898. -/
def toDeg (r : ℝ) : ℝ := r * 180 / Real.pi

/-- Truncation toward zero, as used by the JavaScript remainder operator. -/
def rtrunc (z : ℝ) : ℤ := if 0 ≤ z then ⌊z⌋ else -⌊-z⌋

/-- The JavaScript remainder operator a % b (sign of the dividend). -/
def jsMod (a b : ℝ) : ℝ := a - b * (rtrunc (a / b) : ℝ)

/-- JavaScript Math.sign. -/
def rsign (x : ℝ) : ℝ := if 0 < x then 1 else if x < 0 then -1 else 0

/-- JavaScript Math.atan2 (two-argument arctangent, with atan2 0 0 = 0). -/
def atan2 (y x : ℝ) : ℝ :=
  if 0 < x then Real.arctan (y / x)
  else if x < 0 then
    (if 0 ≤ y then Real.arctan (y / x) + Real.pi else Real.arctan (y / x) - Real.pi)
  else
    (if 0 < y then Real.pi / 2 else if y < 0 then -(Real.pi / 2) else 0)

/-- Haversine great-circle distance, source lines 900-906. -/
def getDist (lat1 lon1 lat2 lon2 : ℝ) : ℝ :=
  let R : ℝ := 6371e3
  let f1 := toRad lat1
  let f2 := toRad lat2
  let df := toRad (lat2 - lat1)
  let dl := toRad (lon2 - lon1)
  let a := Real.sin (df / 2) ^ 2 + Real.cos f1 * Real.cos f2 * Real.sin (dl / 2) ^ 2
  R * 2 * atan2 (Real.sqrt a) (Real.sqrt (1 - a))

/-- Initial great-circle bearing in degrees, source lines 908-914. -/
def getBearing (lat1 lon1 lat2 lon2 : ℝ) : ℝ :=
  let f1 := toRad lat1
  let f2 := toRad lat2
  let dl := toRad (lon2 - lon1)
  let y := Real.sin dl * Real.cos f2
  let x := Real.cos f1 * Real.sin f2 - Real.sin f1 * Real.cos f2 * Real.cos dl
  jsMod (toDeg (atan2 y x) + 360) 360

/-- Closed form of the two wrap-around while loops for the heading error,
source lines 1210-1211: repeatedly subtract 360 while above 180, then
repeatedly add 360 while below -180. -/
def wrap180 (x : ℝ) : ℝ :=
  if 180 < x then x - 360 * (⌈(x - 180) / 360⌉ : ℤ)
  else if x < -180 then x + 360 * (⌈(-180 - x) / 360⌉ : ℤ)
  else x

/-- Forward geodesic projection used by the physics integrator, source lines
1224-1231: the point reached from (lat, lng) after distMeters metres along
the great circle leaving on initial bearing bearingDeg (degrees). -/
def destination (lat lng bearingDeg distMeters : ℝ) : Location :=
  let latRad := toRad lat
  let lngRad := toRad lng
  let headRad := toRad bearingDeg
  let angularDist := distMeters / 6371e3
  let newLat := Real.arcsin (Real.sin latRad * Real.cos angularDist +
    Real.cos latRad * Real.sin angularDist * Real.cos headRad)
  let newLng := lngRad + atan2 (Real.sin headRad * Real.sin angularDist * Real.cos latRad)
    (Real.cos angularDist - Real.sin latRad * Real.sin newLat)
  ⟨toDeg newLat, toDeg newLng⟩

/-! ## Manual control input -/

/-- The eight logical control axes fed by the keyboard handlers and the
virtual cockpit, source lines 1323-1333. -/
structure Controls where
  up : Bool
  down : Bool
  turnLeft : Bool
  turnRight : Bool
  forward : Bool
  backward : Bool
  left : Bool
  right : Bool

/-- Some control axis is active (Object.values(activeControls).some(v : v),
source line 1257). -/
def anyActive (c : Controls) : Bool :=
  c.up || c.down || c.turnLeft || c.turnRight || c.forward || c.backward || c.left || c.right

def noControls : Controls :=
  ⟨false, false, false, false, false, false, false, false⟩

/-! ## The per-drone tick (source lines 1113-1318)

The tick is split along the comment blocks of the source: the state-machine
block (battery drain and flight-mode logic, lines 1130-1194), the physics
movement block (lines 1196-1235), the telemetry publication (lines 1237-1247)
and the manual-control block (lines 1249-1300).  The updateRequestStatus
side effect of the delivery branch is recorded as the list of task ids it was
invoked with. -/

structure ModeStepResult where
  physics : DronePhysics
  drone : Drone
  completedCalls : List String
  targetLat : ℝ
  targetLng : ℝ
  targetAlt : ℝ

/-- The list of task ids passed to updateRequestStatus with status completed
by the delivery branch (source lines 1154-1156): one call if a task is
assigned, none otherwise. -/
def taskCalls (d : Drone) : List String :=
  match d.assignedTaskId with
  | some tid => [tid]
  | none => []

/-- AUTO waypoint logic for the already looked-up next waypoint, source lines
1143-1173 (the body of the if nextWP block). -/
def wpStep (d1 : Drone) (r : List MissionItem) (p2 : DronePhysics) (dt : ℝ)
    (nextWP : MissionItem) : ModeStepResult :=
  let dist := getDist p2.lat p2.lng nextWP.lat nextWP.lng
  if dist < WP_RADIUS ∧ |p2.alt - nextWP.alt| < 2 then
    if nextWP.command = MavCmd.NAV_LAND then
      -- delivery landing, lines 1150-1166
      if p2.alt < 0.5 then
        if p2.isReturningHome = false ∧ p2.deliveryWaitTime = 0 then
          ⟨{ p2 with deliveryWaitTime := dt }, d1, taskCalls d1, nextWP.lat, nextWP.lng, 0⟩
        else if p2.isReturningHome = false ∧ p2.deliveryWaitTime < 3 then
          ⟨{ p2 with deliveryWaitTime := p2.deliveryWaitTime + dt }, d1, [],
            nextWP.lat, nextWP.lng, 0⟩
        else if p2.isReturningHome = false ∧ 3 ≤ p2.deliveryWaitTime then
          ⟨{ p2 with isReturningHome := true, armed := true, flightMode := FlightMode.RTL },
            d1, [], nextWP.lat, nextWP.lng, 0⟩
        else ⟨p2, d1, [], nextWP.lat, nextWP.lng, 0⟩
      else ⟨p2, d1, [], nextWP.lat, nextWP.lng, 0⟩
    else
      -- waypoint advance, lines 1167-1171
      if p2.activeWpIndex < (r.length : ℤ) - 1 then
        ⟨{ p2 with activeWpIndex := p2.activeWpIndex + 1 }, d1, [],
          nextWP.lat, nextWP.lng, nextWP.alt⟩
      else ⟨p2, d1, [], nextWP.lat, nextWP.lng, nextWP.alt⟩
  else ⟨p2, d1, [], nextWP.lat, nextWP.lng, nextWP.alt⟩

/-- AUTO branch of the state machine (mission start, waypoint lookup and the
waypoint logic), source lines 1135-1173. -/
def autoStep (d : Drone) (r : List MissionItem) (p1 : DronePhysics) (dt : ℝ)
    (origLat origLng origAlt : ℝ) : ModeStepResult :=
  -- mission start, lines 1136-1140
  let p2 := if p1.activeWpIndex = -1 then { p1 with activeWpIndex := 0 } else p1
  let d1 := if p1.activeWpIndex = -1 then { d with status := DroneStatus.running } else d
  -- waypoint lookup, line 1142 (undefined for an out-of-range index)
  match (if 0 ≤ p2.activeWpIndex then r.get? p2.activeWpIndex.toNat else none) with
  | none => ⟨p2, d1, [], origLat, origLng, origAlt⟩
  | some nextWP => wpStep d1 r p2 dt nextWP

/-- Battery drain and voltage update, source lines 1131-1133. -/
def batteryStep (p : DronePhysics) (dt : ℝ) : DronePhysics :=
  let b := p.battery_rem - (if p.flightMode = FlightMode.STABILIZE then 0.01 else 0.05) * dt
  { p with battery_rem := b, battery_v := 22.0 + b / 100 * 3.2 }

/-- State-machine block of the tick, source lines 1126-1194.  The drone
record returned reflects the updateDroneStatus running call of the mission
start and the completeDroneTask call of the terminal landing. -/
def modeStep (d : Drone) (r : List MissionItem) (p : DronePhysics) (dt : ℝ) :
    ModeStepResult :=
  if p.armed = true then
    -- battery drain, lines 1131-1133
    let p1 := batteryStep p dt
    if p1.flightMode = FlightMode.AUTO ∧ r.length > 0 then
      autoStep d r p1 dt p.lat p.lng p.alt
    else if p1.flightMode = FlightMode.RTL then
      -- return to launch, lines 1174-1180
      let tLat := p1.homeLocation.lat
      let tLng := p1.homeLocation.lng
      let tAlt := max p1.alt RTL_ALT
      if getDist p1.lat p1.lng tLat tLng < 5 then
        ⟨{ p1 with flightMode := FlightMode.LAND }, d, [], tLat, tLng, tAlt⟩
      else ⟨p1, d, [], tLat, tLng, tAlt⟩
    else if p1.flightMode = FlightMode.LAND then
      -- controlled descent, lines 1181-1193
      if p1.alt < 0.5 then
        let p3 := { p1 with armed := false, flightMode := FlightMode.STABILIZE }
        if p3.isReturningHome = true then
          ⟨{ p3 with isReturningHome := false, deliveryWaitTime := 0, activeWpIndex := -1 },
            applyCompleteDroneTask d, [], p.lat, p.lng, 0⟩
        else ⟨p3, d, [], p.lat, p.lng, 0⟩
      else ⟨p1, d, [], p.lat, p.lng, 0⟩
    else ⟨p1, d, [], p.lat, p.lng, p.alt⟩
  else ⟨p, d, [], p.lat, p.lng, p.alt⟩

/-- Physics movement block, source lines 1196-1235, generalised over the
simulation speed multiplier (the source fixes it to SIM_SPEED_MULT). -/
def moveStepWith (simMult : ℝ) (p : DronePhysics) (targetLat targetLng targetAlt dt : ℝ) :
    DronePhysics :=
  if p.armed = true then
    -- vertical, lines 1198-1202
    let vErr := targetAlt - p.alt
    let vSpdTarget := max (-3) (min 5 vErr)
    let p := { p with vSpeed := p.vSpeed + (vSpdTarget - p.vSpeed) * 2 * dt }
    let p := { p with alt := p.alt + p.vSpeed * dt * simMult }
    -- horizontal, lines 1204-1234
    if p.flightMode = FlightMode.AUTO ∨ p.flightMode = FlightMode.RTL ∨
        p.flightMode = FlightMode.GUIDED ∨ p.flightMode = FlightMode.LAND then
      let groundSpeed : ℝ := 15
      let bearing := getBearing p.lat p.lng targetLat targetLng
      let angleDiff := wrap180 (bearing - p.heading)
      let turnRate : ℝ := 30
      let p :=
        if 1 < |angleDiff| then
          { p with
            heading := jsMod (p.heading + rsign angleDiff * min |angleDiff| (turnRate * dt * simMult) + 360) 360
            roll := rsign angleDiff * (-15) }
        else { p with roll := 0 }
      let moveDist := groundSpeed * dt * simMult
      if 0 < moveDist then
        let latRad := toRad p.lat
        let lngRad := toRad p.lng
        let headRad := toRad p.heading
        let angularDist := moveDist / 6371e3
        let newLat := Real.arcsin (Real.sin latRad * Real.cos angularDist +
          Real.cos latRad * Real.sin angularDist * Real.cos headRad)
        let newLng := lngRad + atan2 (Real.sin headRad * Real.sin angularDist * Real.cos latRad)
          (Real.cos angularDist - Real.sin latRad * Real.sin newLat)
        { p with lat := toDeg newLat, lng := toDeg newLng, speed := groundSpeed * 3.6 }
      else p
    else p
  else p

/-- Physics movement block at the configured multiplier. -/
def moveStep (p : DronePhysics) (targetLat targetLng targetAlt dt : ℝ) : DronePhysics :=
  moveStepWith SIM_SPEED_MULT p targetLat targetLng targetAlt dt

/-- Telemetry publication, source lines 1237-1247. -/
def telemetryStep (d : Drone) (p : DronePhysics) : Drone :=
  { d with telemetry := { d.telemetry with
      latitude := p.lat
      longitude := p.lng
      altitude := p.alt
      speed := p.speed
      verticalSpeed := p.vSpeed
      battery := p.battery_rem
      bearing := p.heading
      status := if p.armed = true then DroneState.ENROUTE else DroneState.IDLE } }

/-! Manual control block, source lines 1249-1300, for the selected drone.
The sequential field mutations of the source are expressed through small
named functions following the same data flow: mode override (lines
1256-1263), throttle and yaw (lines 1265-1269), pitch and roll displacement
(lines 1271-1288) and the moved-manually telemetry update (lines 1290-1299). -/

/-- Mode override condition of the manual block, lines 1257-1258. -/
def manualOverride (p : DronePhysics) (c : Controls) : Prop :=
  anyActive c = true ∧ p.flightMode ≠ FlightMode.GUIDED ∧
    (p.flightMode = FlightMode.AUTO ∨ p.flightMode = FlightMode.RTL ∨
      p.flightMode = FlightMode.STABILIZE)

instance (p : DronePhysics) (c : Controls) : Decidable (manualOverride p c) := by
  unfold manualOverride
  infer_instance

def manualFm (p : DronePhysics) (c : Controls) : FlightMode :=
  if manualOverride p c then FlightMode.GUIDED else p.flightMode

def manualRet (p : DronePhysics) (c : Controls) : Bool :=
  if manualOverride p c then false else p.isReturningHome

/-- Altitude after the up and down axes, lines 1266-1267. -/
def manualAlt (p : DronePhysics) (c : Controls) (dt : ℝ) : ℝ :=
  let ALT_SPEED := 20 * dt * SIM_SPEED_MULT
  let alt1 := if c.up then p.alt + ALT_SPEED else p.alt
  if c.down then max 0 (alt1 - ALT_SPEED) else alt1

/-- Heading after the yaw axes, lines 1268-1269. -/
def manualHeading (p : DronePhysics) (c : Controls) (dt : ℝ) : ℝ :=
  let YAW_SPEED := 75 * dt * SIM_SPEED_MULT
  let h1 := if c.turnLeft then jsMod (p.heading - YAW_SPEED + 360) 360 else p.heading
  if c.turnRight then jsMod (h1 + YAW_SPEED) 360 else h1

def hasArrow (c : Controls) : Bool := c.forward || c.backward || c.left || c.right

/-- Horizontal displacement composed in the heading frame, lines 1272-1283. -/
def manualDx (p : DronePhysics) (c : Controls) (dt : ℝ) : ℝ :=
  (if c.forward then Real.cos (toRad (manualHeading p c dt)) else
    if c.backward then -Real.cos (toRad (manualHeading p c dt)) else 0) +
  (if c.left then Real.cos (toRad (manualHeading p c dt - 90)) else
    if c.right then Real.cos (toRad (manualHeading p c dt + 90)) else 0)

def manualDy (p : DronePhysics) (c : Controls) (dt : ℝ) : ℝ :=
  (if c.forward then Real.sin (toRad (manualHeading p c dt)) else
    if c.backward then -Real.sin (toRad (manualHeading p c dt)) else 0) +
  (if c.left then Real.sin (toRad (manualHeading p c dt - 90)) else
    if c.right then Real.sin (toRad (manualHeading p c dt + 90)) else 0)

def manualPitch (p : DronePhysics) (c : Controls) : ℝ :=
  if hasArrow c then
    (if c.forward then 15 else if c.backward then -15 else p.pitch * 0.8)
  else p.pitch * 0.6

def manualRoll (p : DronePhysics) (c : Controls) : ℝ :=
  if hasArrow c then
    (if c.left then -15 else if c.right then 15 else p.roll * 0.8)
  else p.roll * 0.6

def manualLat (p : DronePhysics) (c : Controls) (dt : ℝ) : ℝ :=
  if hasArrow c then p.lat + 0.00018 * dt * SIM_SPEED_MULT * manualDx p c dt else p.lat

def manualLng (p : DronePhysics) (c : Controls) (dt : ℝ) : ℝ :=
  if hasArrow c then p.lng + 0.00018 * dt * SIM_SPEED_MULT * manualDy p c dt else p.lng

def movedManually (c : Controls) : Bool :=
  c.up || c.down || c.turnLeft || c.turnRight || hasArrow c

/-- Manual control block, source lines 1249-1300. -/
def manualStep (d : Drone) (p : DronePhysics) (selected : Bool) (c : Controls) (dt : ℝ) :
    DronePhysics × Drone :=
  if p.armed = true ∧ selected = true then
    ({ p with
        flightMode := manualFm p c
        isReturningHome := manualRet p c
        alt := manualAlt p c dt
        heading := manualHeading p c dt
        pitch := manualPitch p c
        roll := manualRoll p c
        lat := manualLat p c dt
        lng := manualLng p c dt
        speed := if movedManually c then 45 else p.speed },
      if movedManually c then
        { d with telemetry := { d.telemetry with
            latitude := manualLat p c dt
            longitude := manualLng p c dt
            altitude := manualAlt p c dt
            bearing := manualHeading p c dt
            status := DroneState.ENROUTE } }
      else d)
  else (p, d)

structure TickResult where
  physics : DronePhysics
  drone : Drone
  completedCalls : List String

/-- One tick of the physics loop for one drone, source lines 1115-1312.
Drones without an assigned route are skipped (line 1121). -/
def tickDrone (d : Drone) (p : DronePhysics) (now : ℝ) (selected : Bool) (c : Controls) :
    TickResult :=
  match d.assignedRoute with
  | none => ⟨p, d, []⟩
  | some route =>
      let dt := min ((now - p.lastTick) / 1000) 0.1
      let p0 := { p with lastTick := now }
      let ms := modeStep d route p0 dt
      let p1 := moveStep ms.physics ms.targetLat ms.targetLng ms.targetAlt dt
      let d1 := telemetryStep ms.drone p1
      let (p2, d2) := manualStep d1 p1 selected c dt
      ⟨p2, d2, ms.completedCalls⟩

/-- setMode for the selected drone, source lines 1443-1463: AUTO is rejected
without a route or while disarmed; any accepted mode other than RTL clears
the RTL bookkeeping. -/
def setMode (d : Drone) (p : DronePhysics) (mode : FlightMode) : DronePhysics :=
  if mode = FlightMode.AUTO ∧
      (match d.assignedRoute with | none => true | some r => r.isEmpty) = true then p
  else if mode = FlightMode.AUTO ∧ p.armed = false then p
  else
    let p := { p with flightMode := mode }
    if p.flightMode ≠ FlightMode.RTL then
      { p with isReturningHome := false, deliveryWaitTime := 0 }
    else p

/-- The control action names accepted by handleManualControl. -/
inductive ControlAction
  | up | down | turnLeft | turnRight | forward | backward | left | right
  deriving DecidableEq, Repr

def setControl (c : Controls) (a : ControlAction) (active : Bool) : Controls :=
  match a with
  | ControlAction.up => { c with up := active }
  | ControlAction.down => { c with down := active }
  | ControlAction.turnLeft => { c with turnLeft := active }
  | ControlAction.turnRight => { c with turnRight := active }
  | ControlAction.forward => { c with forward := active }
  | ControlAction.backward => { c with backward := active }
  | ControlAction.left => { c with left := active }
  | ControlAction.right => { c with right := active }

/-- handleManualControl, source lines 1466-1478: stores the axis state and,
on activation, immediately preempts AUTO or RTL to GUIDED for the selected
physics (none when no drone is selected). -/
def handleManualControl (c : Controls) (selectedPhysics : Option DronePhysics)
    (a : ControlAction) (active : Bool) : Controls × Option DronePhysics :=
  let c1 := setControl c a active
  if active = true then
    match selectedPhysics with
    | some p =>
        if p.flightMode = FlightMode.AUTO ∨ p.flightMode = FlightMode.RTL then
          (c1, some { p with flightMode := FlightMode.GUIDED, isReturningHome := false })
        else (c1, some p)
    | none => (c1, none)
  else (c1, selectedPhysics)

/-! ## Tick traces -/

structure TickInput where
  now : ℝ
  selected : Bool
  controls : Controls

structure RunResult where
  drone : Drone
  physics : DronePhysics
  calls : List String

/-- Iterating the tick over a list of inputs, collecting all completion
callbacks in order. -/
def runTicks (d : Drone) (p : DronePhysics) : List TickInput → RunResult
  | [] => ⟨d, p, []⟩
  | i :: is =>
      let r := tickDrone d p i.now i.selected i.controls
      let rest := runTicks r.drone r.physics is
      ⟨rest.drone, rest.physics, r.completedCalls ++ rest.calls⟩

/-- The tick timestamps are strictly increasing starting above the given
last-tick time (so every computed dt is positive). -/
def ChainNow : ℝ → List TickInput → Prop
  | _, [] => True
  | t, i :: is => t < i.now ∧ ChainNow i.now is

end

/-! ## Helper lemmas -/

lemma moveStepWith_discrete (M : ℝ) (p : DronePhysics) (a b c dt : ℝ) :
    (moveStepWith M p a b c dt).flightMode = p.flightMode ∧
    (moveStepWith M p a b c dt).armed = p.armed ∧
    (moveStepWith M p a b c dt).activeWpIndex = p.activeWpIndex ∧
    (moveStepWith M p a b c dt).deliveryWaitTime = p.deliveryWaitTime ∧
    (moveStepWith M p a b c dt).isReturningHome = p.isReturningHome ∧
    (moveStepWith M p a b c dt).battery_rem = p.battery_rem ∧
    (moveStepWith M p a b c dt).lastTick = p.lastTick := by
  simp only [moveStepWith]
  split_ifs <;> simp

lemma manualStep_discrete (d : Drone) (p : DronePhysics) (sel : Bool) (c : Controls) (dt : ℝ) :
    (manualStep d p sel c dt).1.activeWpIndex = p.activeWpIndex ∧
    (manualStep d p sel c dt).1.deliveryWaitTime = p.deliveryWaitTime ∧
    (manualStep d p sel c dt).1.battery_rem = p.battery_rem ∧
    (manualStep d p sel c dt).1.lastTick = p.lastTick ∧
    (manualStep d p sel c dt).1.armed = p.armed ∧
    ((manualStep d p sel c dt).1.flightMode = p.flightMode ∨
      (manualStep d p sel c dt).1.flightMode = FlightMode.GUIDED) ∧
    ((manualStep d p sel c dt).1.isReturningHome = p.isReturningHome ∨
      (manualStep d p sel c dt).1.isReturningHome = false) ∧
    (manualStep d p sel c dt).2.status = d.status ∧
    (manualStep d p sel c dt).2.assignedRoute = d.assignedRoute ∧
    (manualStep d p sel c dt).2.assignedTaskId = d.assignedTaskId := by
  by_cases h : p.armed = true ∧ sel = true
  · refine ⟨?_, ?_, ?_, ?_, ?_, ?_, ?_, ?_, ?_, ?_⟩ <;>
      (simp only [manualStep, manualFm, manualRet, if_pos h]; try split_ifs) <;> simp
  · simp [manualStep, h]

lemma manualStep_mode (d : Drone) (p : DronePhysics) (sel : Bool) (c : Controls) (dt : ℝ) :
    (manualStep d p sel c dt).1.flightMode = p.flightMode ∨
    ((manualStep d p sel c dt).1.flightMode = FlightMode.GUIDED ∧ p.armed = true) := by
  by_cases h : p.armed = true ∧ sel = true
  · simp only [manualStep, if_pos h, manualFm]
    split_ifs with ho
    · exact Or.inr ⟨rfl, h.1⟩
    · exact Or.inl rfl
  · simp [manualStep, h]

lemma telemetryStep_discrete (d : Drone) (p : DronePhysics) :
    (telemetryStep d p).status = d.status ∧
    (telemetryStep d p).assignedRoute = d.assignedRoute ∧
    (telemetryStep d p).assignedTaskId = d.assignedTaskId := by
  unfold telemetryStep
  simp

lemma tickDrone_of_none (d : Drone) (p : DronePhysics) (now : ℝ) (sel : Bool) (c : Controls)
    (h : d.assignedRoute = none) : tickDrone d p now sel c = ⟨p, d, []⟩ := by
  unfold tickDrone
  rw [h]

lemma tickDrone_of_some (d : Drone) (p : DronePhysics) (now : ℝ) (sel : Bool) (c : Controls)
    (r : List MissionItem) (h : d.assignedRoute = some r) :
    tickDrone d p now sel c =
      let dt := min ((now - p.lastTick) / 1000) 0.1
      let ms := modeStep d r { p with lastTick := now } dt
      let p1 := moveStep ms.physics ms.targetLat ms.targetLng ms.targetAlt dt
      let d1 := telemetryStep ms.drone p1
      ⟨(manualStep d1 p1 sel c dt).1, (manualStep d1 p1 sel c dt).2, ms.completedCalls⟩ := by
  unfold tickDrone
  rw [h]

lemma batteryStep_discrete (p : DronePhysics) (dt : ℝ) :
    (batteryStep p dt).flightMode = p.flightMode ∧
    (batteryStep p dt).armed = p.armed ∧
    (batteryStep p dt).activeWpIndex = p.activeWpIndex ∧
    (batteryStep p dt).deliveryWaitTime = p.deliveryWaitTime ∧
    (batteryStep p dt).isReturningHome = p.isReturningHome ∧
    (batteryStep p dt).alt = p.alt ∧
    (batteryStep p dt).lat = p.lat ∧
    (batteryStep p dt).lng = p.lng ∧
    (batteryStep p dt).lastTick = p.lastTick ∧
    (batteryStep p dt).homeLocation = p.homeLocation ∧
    (batteryStep p dt).battery_rem =
      p.battery_rem - (if p.flightMode = FlightMode.STABILIZE then 0.01 else 0.05) * dt := by
  unfold batteryStep
  exact ⟨rfl, rfl, rfl, rfl, rfl, rfl, rfl, rfl, rfl, rfl, rfl⟩

/-- Complete case analysis of the waypoint logic. -/
lemma wpStep_cases (d1 : Drone) (r : List MissionItem) (p2 : DronePhysics) (dt : ℝ)
    (wp : MissionItem) :
    ((wpStep d1 r p2 dt wp).physics = p2 ∧ (wpStep d1 r p2 dt wp).completedCalls = []) ∨
    ((wpStep d1 r p2 dt wp).physics = { p2 with deliveryWaitTime := dt } ∧
      (wpStep d1 r p2 dt wp).completedCalls = taskCalls d1 ∧
      p2.isReturningHome = false ∧ p2.deliveryWaitTime = 0 ∧ p2.alt < 0.5 ∧
      wp.command = MavCmd.NAV_LAND ∧
      getDist p2.lat p2.lng wp.lat wp.lng < WP_RADIUS) ∨
    ((wpStep d1 r p2 dt wp).physics = { p2 with deliveryWaitTime := p2.deliveryWaitTime + dt } ∧
      (wpStep d1 r p2 dt wp).completedCalls = [] ∧
      p2.isReturningHome = false ∧ p2.deliveryWaitTime ≠ 0 ∧ p2.deliveryWaitTime < 3) ∨
    ((wpStep d1 r p2 dt wp).physics =
        { p2 with isReturningHome := true, armed := true, flightMode := FlightMode.RTL } ∧
      (wpStep d1 r p2 dt wp).completedCalls = [] ∧
      p2.isReturningHome = false ∧ 3 ≤ p2.deliveryWaitTime) ∨
    ((wpStep d1 r p2 dt wp).physics = { p2 with activeWpIndex := p2.activeWpIndex + 1 } ∧
      (wpStep d1 r p2 dt wp).completedCalls = [] ∧ wp.command ≠ MavCmd.NAV_LAND ∧
      p2.activeWpIndex < (r.length : ℤ) - 1) := by
  simp only [wpStep]
  split_ifs <;> simp_all

lemma wpStep_drone (d1 : Drone) (r : List MissionItem) (p2 : DronePhysics) (dt : ℝ)
    (wp : MissionItem) : (wpStep d1 r p2 dt wp).drone = d1 := by
  simp only [wpStep]
  split_ifs <;> rfl

/-- Case analysis of the AUTO branch: mission start, then either an empty
waypoint lookup (state otherwise untouched) or the waypoint logic. -/
lemma autoStep_cases (d : Drone) (r : List MissionItem) (p1 : DronePhysics) (dt : ℝ)
    (oa ob oc : ℝ) :
    ∃ p2 d1,
      ((p2 = p1 ∧ d1 = d ∧ p1.activeWpIndex ≠ -1) ∨
        (p2 = { p1 with activeWpIndex := 0 } ∧ d1 = { d with status := DroneStatus.running } ∧
          p1.activeWpIndex = -1)) ∧
      (autoStep d r p1 dt oa ob oc = ⟨p2, d1, [], oa, ob, oc⟩ ∨
        ∃ wp, (if 0 ≤ p2.activeWpIndex then r.get? p2.activeWpIndex.toNat else none) = some wp ∧
          autoStep d r p1 dt oa ob oc = wpStep d1 r p2 dt wp) := by
  unfold autoStep
  by_cases hidx : p1.activeWpIndex = -1
  · simp only [if_pos hidx]
    refine ⟨{ p1 with activeWpIndex := 0 }, { d with status := DroneStatus.running },
      Or.inr ⟨rfl, rfl, hidx⟩, ?_⟩
    rcases hw : (if 0 ≤ ({ p1 with activeWpIndex := 0 } : DronePhysics).activeWpIndex then
        r.get? ({ p1 with activeWpIndex := 0 } : DronePhysics).activeWpIndex.toNat else none) with
      _ | wp
    · exact Or.inl rfl
    · exact Or.inr ⟨wp, rfl, rfl⟩
  · simp only [if_neg hidx]
    refine ⟨p1, d, Or.inl ⟨rfl, rfl, hidx⟩, ?_⟩
    rcases hw : (if 0 ≤ p1.activeWpIndex then r.get? p1.activeWpIndex.toNat else none) with _ | wp
    · exact Or.inl rfl
    · exact Or.inr ⟨wp, rfl, rfl⟩

/-- Top-level case analysis of the state-machine block. -/
lemma modeStep_cases (d : Drone) (r : List MissionItem) (p : DronePhysics) (dt : ℝ) :
    (p.armed = false ∧ modeStep d r p dt = ⟨p, d, [], p.lat, p.lng, p.alt⟩) ∨
    (p.armed = true ∧ p.flightMode = FlightMode.AUTO ∧ r.length > 0 ∧
      modeStep d r p dt = autoStep d r (batteryStep p dt) dt p.lat p.lng p.alt) ∨
    (p.armed = true ∧ p.flightMode = FlightMode.RTL ∧
      ((modeStep d r p dt = ⟨{ (batteryStep p dt) with flightMode := FlightMode.LAND }, d, [],
          p.homeLocation.lat, p.homeLocation.lng, max p.alt RTL_ALT⟩ ∧
        getDist p.lat p.lng p.homeLocation.lat p.homeLocation.lng < 5) ∨
       (modeStep d r p dt = ⟨batteryStep p dt, d, [],
          p.homeLocation.lat, p.homeLocation.lng, max p.alt RTL_ALT⟩ ∧
        ¬ getDist p.lat p.lng p.homeLocation.lat p.homeLocation.lng < 5))) ∨
    (p.armed = true ∧ p.flightMode = FlightMode.LAND ∧
      ((p.alt < 0.5 ∧ p.isReturningHome = true ∧
        modeStep d r p dt = ⟨{ (batteryStep p dt) with armed := false, flightMode := FlightMode.STABILIZE, isReturningHome := false, deliveryWaitTime := 0, activeWpIndex := -1 }, applyCompleteDroneTask d, [], p.lat, p.lng, 0⟩) ∨
       (p.alt < 0.5 ∧ p.isReturningHome = false ∧
        modeStep d r p dt = ⟨{ (batteryStep p dt) with armed := false, flightMode := FlightMode.STABILIZE }, d, [], p.lat, p.lng, 0⟩) ∨
       (¬ p.alt < 0.5 ∧
        modeStep d r p dt = ⟨batteryStep p dt, d, [], p.lat, p.lng, 0⟩))) ∨
    (p.armed = true ∧ ¬ (p.flightMode = FlightMode.AUTO ∧ r.length > 0) ∧
      p.flightMode ≠ FlightMode.RTL ∧ p.flightMode ≠ FlightMode.LAND ∧
      modeStep d r p dt = ⟨batteryStep p dt, d, [], p.lat, p.lng, p.alt⟩) := by
  have hb := batteryStep_discrete p dt
  simp only [modeStep]
  split_ifs <;> simp_all

lemma wpStep_pres (d1 : Drone) (r : List MissionItem) (p2 : DronePhysics) (dt : ℝ)
    (wp : MissionItem) :
    (wpStep d1 r p2 dt wp).physics.lastTick = p2.lastTick ∧
    (wpStep d1 r p2 dt wp).physics.homeLocation = p2.homeLocation ∧
    (wpStep d1 r p2 dt wp).physics.battery_rem = p2.battery_rem ∧
    (wpStep d1 r p2 dt wp).physics.alt = p2.alt ∧
    (wpStep d1 r p2 dt wp).physics.lat = p2.lat ∧
    (wpStep d1 r p2 dt wp).physics.lng = p2.lng := by
  simp only [wpStep]
  split_ifs <;> simp

lemma autoStep_pres (d : Drone) (r : List MissionItem) (p1 : DronePhysics) (dt : ℝ)
    (oa ob oc : ℝ) :
    (autoStep d r p1 dt oa ob oc).physics.lastTick = p1.lastTick ∧
    (autoStep d r p1 dt oa ob oc).physics.homeLocation = p1.homeLocation ∧
    (autoStep d r p1 dt oa ob oc).physics.battery_rem = p1.battery_rem ∧
    ((autoStep d r p1 dt oa ob oc).drone = d ∨
      (autoStep d r p1 dt oa ob oc).drone = { d with status := DroneStatus.running }) := by
  obtain ⟨p2, d1, hpd, hcase⟩ := autoStep_cases d r p1 dt oa ob oc
  have hp2 : p2.lastTick = p1.lastTick ∧ p2.homeLocation = p1.homeLocation ∧
      p2.battery_rem = p1.battery_rem := by
    rcases hpd with ⟨h, _, _⟩ | ⟨h, _, _⟩ <;> rw [h] <;> exact ⟨rfl, rfl, rfl⟩
  have hd1 : d1 = d ∨ d1 = { d with status := DroneStatus.running } := by
    rcases hpd with ⟨_, h, _⟩ | ⟨_, h, _⟩ <;> rw [h]
    · exact Or.inl rfl
    · exact Or.inr rfl
  rcases hcase with h | ⟨wp, _, h⟩
  · rw [h]
    exact ⟨hp2.1, hp2.2.1, hp2.2.2, hd1⟩
  · rw [h]
    obtain ⟨w1, w2, w3, _⟩ := wpStep_pres d1 r p2 dt wp
    rw [wpStep_drone]
    exact ⟨w1.trans hp2.1, w2.trans hp2.2.1, w3.trans hp2.2.2, hd1⟩

/-- Fields preserved or controlled by the whole state-machine block. -/
lemma modeStep_pres (d : Drone) (r : List MissionItem) (p : DronePhysics) (dt : ℝ) :
    (modeStep d r p dt).physics.lastTick = p.lastTick ∧
    ((modeStep d r p dt).physics.battery_rem = p.battery_rem ∨
      (modeStep d r p dt).physics.battery_rem =
        p.battery_rem - (if p.flightMode = FlightMode.STABILIZE then 0.01 else 0.05) * dt) ∧
    ((modeStep d r p dt).drone = d ∨
      (modeStep d r p dt).drone = { d with status := DroneStatus.running } ∨
      ((modeStep d r p dt).drone = applyCompleteDroneTask d ∧ p.isReturningHome = true)) := by
  obtain ⟨hfm, har, hai, hdw, hret, halt, hlat, hlng, hlt, hhome, hbat⟩ := batteryStep_discrete p dt
  rcases modeStep_cases d r p dt with ⟨_, hms⟩ | ⟨_, _, _, hms⟩ |
    ⟨_, _, ⟨hms, _⟩ | ⟨hms, _⟩⟩ | ⟨_, _, ⟨_, hret2, hms⟩ | ⟨_, _, hms⟩ | ⟨_, hms⟩⟩ |
    ⟨_, _, _, _, hms⟩
  · rw [hms]
    exact ⟨rfl, Or.inl rfl, Or.inl rfl⟩
  · rw [hms]
    obtain ⟨a1, _, a3, a4⟩ := autoStep_pres d r (batteryStep p dt) dt p.lat p.lng p.alt
    refine ⟨a1.trans hlt, Or.inr (a3.trans hbat), ?_⟩
    rcases a4 with h | h
    · exact Or.inl h
    · exact Or.inr (Or.inl h)
  · rw [hms]
    exact ⟨hlt, Or.inr hbat, Or.inl rfl⟩
  · rw [hms]
    exact ⟨hlt, Or.inr hbat, Or.inl rfl⟩
  · rw [hms]
    exact ⟨hlt, Or.inr hbat, Or.inr (Or.inr ⟨rfl, hret2⟩)⟩
  · rw [hms]
    exact ⟨hlt, Or.inr hbat, Or.inl rfl⟩
  · rw [hms]
    exact ⟨hlt, Or.inr hbat, Or.inl rfl⟩
  · rw [hms]
    exact ⟨hlt, Or.inr hbat, Or.inl rfl⟩

/-- How the delivery wait timer can evolve in one state-machine step. -/
lemma modeStep_wait (d : Drone) (r : List MissionItem) (p : DronePhysics) (dt : ℝ) :
    (modeStep d r p dt).physics.deliveryWaitTime = p.deliveryWaitTime ∨
    ((modeStep d r p dt).physics.deliveryWaitTime = dt ∧ p.deliveryWaitTime = 0 ∧
      (modeStep d r p dt).completedCalls = taskCalls d) ∨
    ((modeStep d r p dt).physics.deliveryWaitTime = p.deliveryWaitTime + dt ∧
      p.deliveryWaitTime ≠ 0) ∨
    ((modeStep d r p dt).physics.deliveryWaitTime = 0 ∧
      (modeStep d r p dt).drone.assignedRoute = none ∧ p.isReturningHome = true) := by
  obtain ⟨hfm, har, hai, hdw, hret, halt, hlat, hlng, hlt, hhome, hbat⟩ := batteryStep_discrete p dt
  rcases modeStep_cases d r p dt with ⟨_, hms⟩ | ⟨_, _, _, hms⟩ |
    ⟨_, _, ⟨hms, _⟩ | ⟨hms, _⟩⟩ | ⟨_, _, ⟨_, hret2, hms⟩ | ⟨_, _, hms⟩ | ⟨_, hms⟩⟩ |
    ⟨_, _, _, _, hms⟩
  · rw [hms]
    exact Or.inl rfl
  · rw [hms]
    obtain ⟨p2, d1, hpd, hcase⟩ := autoStep_cases d r (batteryStep p dt) dt p.lat p.lng p.alt
    have hp2w : p2.deliveryWaitTime = p.deliveryWaitTime := by
      rcases hpd with ⟨h, _, _⟩ | ⟨h, _, _⟩ <;> rw [h] <;> simp [hdw]
    have hd1t : taskCalls d1 = taskCalls d := by
      rcases hpd with ⟨_, h, _⟩ | ⟨_, h, _⟩ <;> rw [h] <;> simp [taskCalls]
    rcases hcase with h | ⟨wp, _, h⟩
    · rw [h]
      exact Or.inl hp2w
    · rw [h]
      rcases wpStep_cases d1 r p2 dt wp with ⟨h1, _⟩ | ⟨h1, h2, _, h4, _⟩ |
        ⟨h1, _, _, hw0, _⟩ | ⟨h1, _, _, _⟩ | ⟨h1, _, _, _⟩
      · rw [h1]
        exact Or.inl hp2w
      · rw [h1]
        refine Or.inr (Or.inl ⟨rfl, hp2w ▸ h4, h2.trans hd1t⟩)
      · rw [h1]
        exact Or.inr (Or.inr (Or.inl ⟨by simp [hp2w], hp2w ▸ hw0⟩))
      · rw [h1]
        exact Or.inl hp2w
      · rw [h1]
        exact Or.inl hp2w
  · rw [hms]
    exact Or.inl hdw
  · rw [hms]
    exact Or.inl hdw
  · rw [hms]
    exact Or.inr (Or.inr (Or.inr ⟨rfl, rfl, hret2⟩))
  · rw [hms]
    exact Or.inl hdw
  · rw [hms]
    exact Or.inl hdw
  · rw [hms]
    exact Or.inl hdw

/-- All tick-result fields of interest reduce to the state-machine block
output (the movement, telemetry and manual blocks leave them alone or, for
the returning flag and mode, only clear or override them). -/
lemma tickDrone_proj (d : Drone) (p : DronePhysics) (now : ℝ) (sel : Bool) (c : Controls)
    (r : List MissionItem) (h : d.assignedRoute = some r) :
    (tickDrone d p now sel c).completedCalls =
      (modeStep d r { p with lastTick := now } (min ((now - p.lastTick) / 1000) 0.1)).completedCalls ∧
    (tickDrone d p now sel c).physics.deliveryWaitTime =
      (modeStep d r { p with lastTick := now } (min ((now - p.lastTick) / 1000) 0.1)).physics.deliveryWaitTime ∧
    (tickDrone d p now sel c).physics.battery_rem =
      (modeStep d r { p with lastTick := now } (min ((now - p.lastTick) / 1000) 0.1)).physics.battery_rem ∧
    (tickDrone d p now sel c).physics.lastTick =
      (modeStep d r { p with lastTick := now } (min ((now - p.lastTick) / 1000) 0.1)).physics.lastTick ∧
    (tickDrone d p now sel c).physics.armed =
      (modeStep d r { p with lastTick := now } (min ((now - p.lastTick) / 1000) 0.1)).physics.armed ∧
    (tickDrone d p now sel c).physics.activeWpIndex =
      (modeStep d r { p with lastTick := now } (min ((now - p.lastTick) / 1000) 0.1)).physics.activeWpIndex ∧
    ((tickDrone d p now sel c).physics.isReturningHome =
      (modeStep d r { p with lastTick := now } (min ((now - p.lastTick) / 1000) 0.1)).physics.isReturningHome ∨
      (tickDrone d p now sel c).physics.isReturningHome = false) ∧
    ((tickDrone d p now sel c).physics.flightMode =
      (modeStep d r { p with lastTick := now } (min ((now - p.lastTick) / 1000) 0.1)).physics.flightMode ∨
      ((tickDrone d p now sel c).physics.flightMode = FlightMode.GUIDED ∧
        (modeStep d r { p with lastTick := now }
          (min ((now - p.lastTick) / 1000) 0.1)).physics.armed = true)) ∧
    (tickDrone d p now sel c).drone.status =
      (modeStep d r { p with lastTick := now } (min ((now - p.lastTick) / 1000) 0.1)).drone.status ∧
    (tickDrone d p now sel c).drone.assignedRoute =
      (modeStep d r { p with lastTick := now } (min ((now - p.lastTick) / 1000) 0.1)).drone.assignedRoute ∧
    (tickDrone d p now sel c).drone.assignedTaskId =
      (modeStep d r { p with lastTick := now } (min ((now - p.lastTick) / 1000) 0.1)).drone.assignedTaskId := by
  rw [tickDrone_of_some d p now sel c r h]
  obtain ⟨mv1, mv2, mv3, mv4, mv5, mv6, mv7⟩ :=
    moveStepWith_discrete SIM_SPEED_MULT
      (modeStep d r { p with lastTick := now } (min ((now - p.lastTick) / 1000) 0.1)).physics
      (modeStep d r { p with lastTick := now } (min ((now - p.lastTick) / 1000) 0.1)).targetLat
      (modeStep d r { p with lastTick := now } (min ((now - p.lastTick) / 1000) 0.1)).targetLng
      (modeStep d r { p with lastTick := now } (min ((now - p.lastTick) / 1000) 0.1)).targetAlt
      (min ((now - p.lastTick) / 1000) 0.1)
  obtain ⟨m1, m2, m3, m4, m5, m6, m7, m8, m9, m10⟩ :=
    manualStep_discrete
      (telemetryStep (modeStep d r { p with lastTick := now } (min ((now - p.lastTick) / 1000) 0.1)).drone
        (moveStepWith SIM_SPEED_MULT
          (modeStep d r { p with lastTick := now } (min ((now - p.lastTick) / 1000) 0.1)).physics
          (modeStep d r { p with lastTick := now } (min ((now - p.lastTick) / 1000) 0.1)).targetLat
          (modeStep d r { p with lastTick := now } (min ((now - p.lastTick) / 1000) 0.1)).targetLng
          (modeStep d r { p with lastTick := now } (min ((now - p.lastTick) / 1000) 0.1)).targetAlt
          (min ((now - p.lastTick) / 1000) 0.1)))
      (moveStepWith SIM_SPEED_MULT
        (modeStep d r { p with lastTick := now } (min ((now - p.lastTick) / 1000) 0.1)).physics
        (modeStep d r { p with lastTick := now } (min ((now - p.lastTick) / 1000) 0.1)).targetLat
        (modeStep d r { p with lastTick := now } (min ((now - p.lastTick) / 1000) 0.1)).targetLng
        (modeStep d r { p with lastTick := now } (min ((now - p.lastTick) / 1000) 0.1)).targetAlt
        (min ((now - p.lastTick) / 1000) 0.1))
      sel c (min ((now - p.lastTick) / 1000) 0.1)
  obtain ⟨t1, t2, t3⟩ :=
    telemetryStep_discrete (modeStep d r { p with lastTick := now } (min ((now - p.lastTick) / 1000) 0.1)).drone
      (moveStepWith SIM_SPEED_MULT
        (modeStep d r { p with lastTick := now } (min ((now - p.lastTick) / 1000) 0.1)).physics
        (modeStep d r { p with lastTick := now } (min ((now - p.lastTick) / 1000) 0.1)).targetLat
        (modeStep d r { p with lastTick := now } (min ((now - p.lastTick) / 1000) 0.1)).targetLng
        (modeStep d r { p with lastTick := now } (min ((now - p.lastTick) / 1000) 0.1)).targetAlt
        (min ((now - p.lastTick) / 1000) 0.1))
  refine ⟨rfl, m2.trans mv4, m3.trans mv6, m4.trans mv7, m5.trans mv2, m1.trans mv3,
    m7.elim (fun hm => Or.inl (hm.trans mv5)) Or.inr, ?_,
    m8.trans t1, m9.trans t2, m10.trans t3⟩
  rcases manualStep_mode
      (telemetryStep (modeStep d r { p with lastTick := now } (min ((now - p.lastTick) / 1000) 0.1)).drone
        (moveStepWith SIM_SPEED_MULT
          (modeStep d r { p with lastTick := now } (min ((now - p.lastTick) / 1000) 0.1)).physics
          (modeStep d r { p with lastTick := now } (min ((now - p.lastTick) / 1000) 0.1)).targetLat
          (modeStep d r { p with lastTick := now } (min ((now - p.lastTick) / 1000) 0.1)).targetLng
          (modeStep d r { p with lastTick := now } (min ((now - p.lastTick) / 1000) 0.1)).targetAlt
          (min ((now - p.lastTick) / 1000) 0.1)))
      (moveStepWith SIM_SPEED_MULT
        (modeStep d r { p with lastTick := now } (min ((now - p.lastTick) / 1000) 0.1)).physics
        (modeStep d r { p with lastTick := now } (min ((now - p.lastTick) / 1000) 0.1)).targetLat
        (modeStep d r { p with lastTick := now } (min ((now - p.lastTick) / 1000) 0.1)).targetLng
        (modeStep d r { p with lastTick := now } (min ((now - p.lastTick) / 1000) 0.1)).targetAlt
        (min ((now - p.lastTick) / 1000) 0.1))
      sel c (min ((now - p.lastTick) / 1000) 0.1) with hm | ⟨hm, harm⟩
  · exact Or.inl (hm.trans mv1)
  · exact Or.inr ⟨hm, harm.symm.trans mv2 |>.symm⟩

lemma dt_pos (p : DronePhysics) (now : ℝ) (h : p.lastTick < now) :
    0 < min ((now - p.lastTick) / 1000) 0.1 := by
  apply lt_min
  · apply div_pos (sub_pos.mpr h)
    norm_num
  · norm_num

lemma dt_nonneg (p : DronePhysics) (now : ℝ) (h : p.lastTick ≤ now) :
    0 ≤ min ((now - p.lastTick) / 1000) 0.1 := by
  apply le_min
  · apply div_nonneg (sub_nonneg.mpr h)
    norm_num
  · norm_num

lemma chainNow_mono (t u : ℝ) (l : List TickInput) (h : t ≤ u) (hc : ChainNow u l) :
    ChainNow t l := by
  cases l with
  | nil => trivial
  | cons i is => exact ⟨lt_of_le_of_lt h hc.1, hc.2⟩

lemma tickDrone_lastTick (d : Drone) (p : DronePhysics) (now : ℝ) (sel : Bool) (c : Controls) :
    (tickDrone d p now sel c).physics.lastTick = now ∨
    (tickDrone d p now sel c).physics.lastTick = p.lastTick := by
  rcases hr : d.assignedRoute with _ | r
  · rw [tickDrone_of_none d p now sel c hr]
    exact Or.inr rfl
  · left
    have hp := tickDrone_proj d p now sel c r hr
    rw [hp.2.2.2.1, (modeStep_pres d r { p with lastTick := now } _).1]

/-- How the returning-home flag can evolve in one state-machine step. -/
lemma modeStep_ret (d : Drone) (r : List MissionItem) (p : DronePhysics) (dt : ℝ) :
    (modeStep d r p dt).physics.isReturningHome = p.isReturningHome ∨
    ((modeStep d r p dt).physics.isReturningHome = true ∧ 3 ≤ p.deliveryWaitTime) ∨
    (modeStep d r p dt).physics.isReturningHome = false := by
  obtain ⟨hfm, har, hai, hdw, hret, halt, hlat, hlng, hlt, hhome, hbat⟩ := batteryStep_discrete p dt
  rcases modeStep_cases d r p dt with ⟨_, hms⟩ | ⟨_, _, _, hms⟩ |
    ⟨_, _, ⟨hms, _⟩ | ⟨hms, _⟩⟩ | ⟨_, _, ⟨_, hret2, hms⟩ | ⟨_, _, hms⟩ | ⟨_, hms⟩⟩ |
    ⟨_, _, _, _, hms⟩
  · rw [hms]
    exact Or.inl rfl
  · rw [hms]
    obtain ⟨p2, d1, hpd, hcase⟩ := autoStep_cases d r (batteryStep p dt) dt p.lat p.lng p.alt
    have hp2r : p2.isReturningHome = p.isReturningHome := by
      rcases hpd with ⟨h, _, _⟩ | ⟨h, _, _⟩ <;> rw [h] <;> simp [hret]
    have hp2w : p2.deliveryWaitTime = p.deliveryWaitTime := by
      rcases hpd with ⟨h, _, _⟩ | ⟨h, _, _⟩ <;> rw [h] <;> simp [hdw]
    rcases hcase with h | ⟨wp, _, h⟩
    · rw [h]
      exact Or.inl hp2r
    · rw [h]
      rcases wpStep_cases d1 r p2 dt wp with ⟨h1, _⟩ | ⟨h1, _, _, _, _⟩ |
        ⟨h1, _, _, _, _⟩ | ⟨h1, _, _, hw3⟩ | ⟨h1, _, _, _⟩
      · rw [h1]
        exact Or.inl hp2r
      · rw [h1]
        exact Or.inl hp2r
      · rw [h1]
        exact Or.inl hp2r
      · rw [h1]
        exact Or.inr (Or.inl ⟨rfl, hp2w ▸ hw3⟩)
      · rw [h1]
        exact Or.inl hp2r
  · rw [hms]
    exact Or.inl hret
  · rw [hms]
    exact Or.inl hret
  · rw [hms]
    exact Or.inr (Or.inr rfl)
  · rw [hms]
    exact Or.inl hret
  · rw [hms]
    exact Or.inl hret
  · rw [hms]
    exact Or.inl hret

/-- The completion callback fires only on the first delivery landing tick:
armed, in AUTO, at a NAV_LAND waypoint of the route, below 0.5 m, not yet
returning home, with a zero wait timer; it then emits exactly the assigned
task id and starts the wait timer at dt. -/
lemma tickDrone_calls_char (d : Drone) (p : DronePhysics) (now : ℝ) (sel : Bool) (c : Controls)
    (h : (tickDrone d p now sel c).completedCalls ≠ []) :
    p.armed = true ∧ p.flightMode = FlightMode.AUTO ∧ p.isReturningHome = false ∧
    p.deliveryWaitTime = 0 ∧ p.alt < 0.5 ∧
    (∃ r wp, d.assignedRoute = some r ∧ wp ∈ r ∧ wp.command = MavCmd.NAV_LAND) ∧
    (∃ t, d.assignedTaskId = some t ∧ (tickDrone d p now sel c).completedCalls = [t]) ∧
    (tickDrone d p now sel c).physics.deliveryWaitTime = min ((now - p.lastTick) / 1000) 0.1 := by
  rcases hr : d.assignedRoute with _ | r
  · rw [tickDrone_of_none d p now sel c hr] at h
    exact absurd rfl h
  · obtain ⟨c1, c2, _⟩ := tickDrone_proj d p now sel c r hr
    rw [c1] at h
    obtain ⟨hfm, har, hai, hdw, hret, halt, hlat, hlng, hlt, hhome, hbat⟩ :=
      batteryStep_discrete { p with lastTick := now } (min ((now - p.lastTick) / 1000) 0.1)
    rcases modeStep_cases d r { p with lastTick := now } (min ((now - p.lastTick) / 1000) 0.1) with
      ⟨_, hms⟩ | ⟨harm, hauto, _, hms⟩ |
      ⟨_, _, ⟨hms, _⟩ | ⟨hms, _⟩⟩ | ⟨_, _, ⟨_, _, hms⟩ | ⟨_, _, hms⟩ | ⟨_, hms⟩⟩ |
      ⟨_, _, _, _, hms⟩ <;>
      rw [hms] at h <;> try exact absurd rfl h
    -- AUTO branch
    obtain ⟨p2, d1, hpd, hcase⟩ :=
      autoStep_cases d r (batteryStep { p with lastTick := now } (min ((now - p.lastTick) / 1000) 0.1))
        (min ((now - p.lastTick) / 1000) 0.1)
        ({ p with lastTick := now } : DronePhysics).lat ({ p with lastTick := now } : DronePhysics).lng
        ({ p with lastTick := now } : DronePhysics).alt
    rcases hcase with hc | ⟨wp, hw, hc⟩
    · rw [hc] at h
      exact absurd rfl h
    · rw [hc] at h
      rcases wpStep_cases d1 r p2 (min ((now - p.lastTick) / 1000) 0.1) wp with
        ⟨_, hcz⟩ | ⟨h1, h2, h3, h4, h5, h6, _⟩ | ⟨_, hcz, _⟩ | ⟨_, hcz, _⟩ | ⟨_, hcz, _⟩ <;>
        try exact absurd hcz h
      -- fire branch
      have hp2 : p2.isReturningHome = p.isReturningHome ∧ p2.deliveryWaitTime = p.deliveryWaitTime ∧
          p2.alt = p.alt ∧ p2.armed = ({ p with lastTick := now } : DronePhysics).armed := by
        rcases hpd with ⟨hq, _, _⟩ | ⟨hq, _, _⟩ <;> rw [hq] <;>
          exact ⟨hret, hdw, halt, har⟩
      have hd1t : taskCalls d1 = taskCalls d := by
        rcases hpd with ⟨_, hq, _⟩ | ⟨_, hq, _⟩ <;> rw [hq] <;> simp [taskCalls]
      have hwmem : wp ∈ r := by
        by_cases h0 : (0 : ℤ) ≤ p2.activeWpIndex
        · rw [if_pos h0] at hw
          exact List.get?_mem hw
        · rw [if_neg h0] at hw
          exact absurd hw (by simp)
      have harm2 : p.armed = true := by
        have := har
        simpa using harm
      have hfm2 : p.flightMode = FlightMode.AUTO := by
        simpa using hauto
      refine ⟨harm2, hfm2, by rw [← hp2.1]; exact h3, by rw [← hp2.2.1]; exact h4,
        by rw [hp2.2.2.1] at h5; exact h5, ⟨r, wp, rfl, hwmem, h6⟩, ?_, ?_⟩
      · rw [h2, hd1t] at h
        rw [c1, hms, hc, h2, hd1t]
        unfold taskCalls at h ⊢
        rcases ht : d.assignedTaskId with _ | t
        · rw [ht] at h
          exact absurd rfl h
        · exact ⟨t, rfl, rfl⟩
      · rw [c2, hms, hc, h1]

def NoRefire (d : Drone) (p : DronePhysics) : Prop :=
  d.assignedRoute = none ∨ 0 < p.deliveryWaitTime

/-- Once the wait timer is positive (or the route is cleared), a tick with
positive elapsed time emits no completion callback and keeps that state. -/
lemma NoRefire_step (d : Drone) (p : DronePhysics) (now : ℝ) (sel : Bool) (c : Controls)
    (hdt : p.lastTick < now) (h : NoRefire d p) :
    (tickDrone d p now sel c).completedCalls = [] ∧
    NoRefire (tickDrone d p now sel c).drone (tickDrone d p now sel c).physics := by
  have hcz : (tickDrone d p now sel c).completedCalls = [] := by
    by_contra hne
    obtain ⟨_, _, _, hwz, _, ⟨r, wp, hroute, _, _⟩, _, _⟩ := tickDrone_calls_char d p now sel c hne
    rcases h with h | h
    · rw [hroute] at h
      exact Option.noConfusion h
    · rw [hwz] at h
      exact lt_irrefl 0 h
  refine ⟨hcz, ?_⟩
  rcases hr : d.assignedRoute with _ | r
  · rw [tickDrone_of_none d p now sel c hr]
    exact Or.inl hr
  · obtain ⟨c1, c2, _, _, _, _, _, _, _, croute, _⟩ := tickDrone_proj d p now sel c r hr
    rcases h with h | h
    · rw [hr] at h
      exact Option.noConfusion h
    · rcases modeStep_wait d r { p with lastTick := now } (min ((now - p.lastTick) / 1000) 0.1) with
        hw | ⟨_, hwz, _⟩ | ⟨hw, _⟩ | ⟨_, hnone, _⟩
      · right
        rw [c2, hw]
        simpa using h
      · exfalso
        have : p.deliveryWaitTime = 0 := by simpa using hwz
        rw [this] at h
        exact lt_irrefl 0 h
      · right
        rw [c2, hw]
        have hgt : (0 : ℝ) < min ((now - p.lastTick) / 1000) 0.1 := dt_pos p now hdt
        have hpw : ({ p with lastTick := now } : DronePhysics).deliveryWaitTime =
            p.deliveryWaitTime := rfl
        rw [hpw]
        linarith
      · left
        rw [croute, hnone]

def MissionPending (tid : String) (d : Drone) (p : DronePhysics) : Prop :=
  p.deliveryWaitTime = 0 ∧ p.isReturningHome = false ∧ d.status ≠ DroneStatus.idle ∧
  d.assignedTaskId = some tid

/-- A tick that emits no completion callback leaves a pending mission
pending: wait timer zero, not returning, status not idle, task unchanged. -/
lemma MissionPending_step (tid : String) (d : Drone) (p : DronePhysics) (now : ℝ) (sel : Bool)
    (c : Controls) (h : MissionPending tid d p)
    (hfz : (tickDrone d p now sel c).completedCalls = []) :
    MissionPending tid (tickDrone d p now sel c).drone (tickDrone d p now sel c).physics := by
  obtain ⟨hw0, hr0, hs0, ht0⟩ := h
  rcases hr : d.assignedRoute with _ | r
  · rw [tickDrone_of_none d p now sel c hr]
    exact ⟨hw0, hr0, hs0, ht0⟩
  · obtain ⟨c1, c2, _, _, _, _, cret, _, cstat, _, ctask⟩ := tickDrone_proj d p now sel c r hr
    have hdrone := (modeStep_pres d r { p with lastTick := now }
      (min ((now - p.lastTick) / 1000) 0.1)).2.2
    have hdfacts : (modeStep d r { p with lastTick := now }
        (min ((now - p.lastTick) / 1000) 0.1)).drone.status ≠ DroneStatus.idle ∧
        (modeStep d r { p with lastTick := now }
          (min ((now - p.lastTick) / 1000) 0.1)).drone.assignedTaskId = some tid := by
      rcases hdrone with hq | hq | ⟨_, hq⟩
      · rw [hq]
        exact ⟨hs0, ht0⟩
      · rw [hq]
        refine ⟨by simp, by simpa using ht0⟩
      · exfalso
        have : p.isReturningHome = true := by simpa using hq
        rw [hr0] at this
        exact Bool.noConfusion this
    have hwz : (modeStep d r { p with lastTick := now }
        (min ((now - p.lastTick) / 1000) 0.1)).physics.deliveryWaitTime = 0 := by
      rcases modeStep_wait d r { p with lastTick := now } (min ((now - p.lastTick) / 1000) 0.1) with
        hw | ⟨_, _, hcall⟩ | ⟨_, hne⟩ | ⟨_, _, hq⟩
      · rw [hw]
        simpa using hw0
      · exfalso
        rw [c1] at hfz
        rw [hfz] at hcall
        unfold taskCalls at hcall
        rw [ht0] at hcall
        exact List.noConfusion hcall.symm
      · exfalso
        exact hne (by simpa using hw0)
      · exfalso
        have : p.isReturningHome = true := by simpa using hq
        rw [hr0] at this
        exact Bool.noConfusion this
    have hrz : (tickDrone d p now sel c).physics.isReturningHome = false := by
      rcases cret with hq | hq
      · rw [hq]
        rcases modeStep_ret d r { p with lastTick := now } (min ((now - p.lastTick) / 1000) 0.1) with
          hm | ⟨_, h3⟩ | hm
        · rw [hm]
          simpa using hr0
        · exfalso
          have : ({ p with lastTick := now } : DronePhysics).deliveryWaitTime = 0 := by
            simpa using hw0
          rw [this] at h3
          linarith
        · exact hm
      · exact hq
    exact ⟨by rw [c2]; exact hwz, hrz, by rw [cstat]; exact hdfacts.1,
      by rw [ctask]; exact hdfacts.2⟩

lemma runTicks_nil (d : Drone) (p : DronePhysics) : runTicks d p [] = ⟨d, p, []⟩ := rfl

lemma runTicks_cons (d : Drone) (p : DronePhysics) (i : TickInput) (is : List TickInput) :
    runTicks d p (i :: is) =
      ⟨(runTicks (tickDrone d p i.now i.selected i.controls).drone
          (tickDrone d p i.now i.selected i.controls).physics is).drone,
        (runTicks (tickDrone d p i.now i.selected i.controls).drone
          (tickDrone d p i.now i.selected i.controls).physics is).physics,
        (tickDrone d p i.now i.selected i.controls).completedCalls ++
          (runTicks (tickDrone d p i.now i.selected i.controls).drone
            (tickDrone d p i.now i.selected i.controls).physics is).calls⟩ := rfl

/-- Over any tick trace with strictly increasing timestamps, the completion
callback is emitted at most once, and never from a no-refire state. -/
lemma runTicks_count : ∀ (inputs : List TickInput) (d : Drone) (p : DronePhysics),
    ChainNow p.lastTick inputs →
    (runTicks d p inputs).calls.length ≤ 1 ∧
    (NoRefire d p → (runTicks d p inputs).calls = []) := by
  intro inputs
  induction inputs with
  | nil =>
      intro d p _
      exact ⟨by simp [runTicks_nil], fun _ => rfl⟩
  | cons i is ih =>
      intro d p hc
      obtain ⟨hd, tl⟩ := hc
      have hchain : ChainNow (tickDrone d p i.now i.selected i.controls).physics.lastTick is := by
        rcases tickDrone_lastTick d p i.now i.selected i.controls with hq | hq
        · rw [hq]
          exact tl
        · rw [hq]
          exact chainNow_mono _ _ _ (le_of_lt hd) tl
      have IH := ih (tickDrone d p i.now i.selected i.controls).drone
        (tickDrone d p i.now i.selected i.controls).physics hchain
      by_cases hno : NoRefire d p
      · obtain ⟨hcz, hpres⟩ := NoRefire_step d p i.now i.selected i.controls hd hno
        constructor
        · rw [runTicks_cons]
          simp [hcz, IH.2 hpres]
        · intro _
          rw [runTicks_cons]
          simp [hcz, IH.2 hpres]
      · by_cases hfz : (tickDrone d p i.now i.selected i.controls).completedCalls = []
        · refine ⟨?_, fun hno2 => absurd hno2 hno⟩
          rw [runTicks_cons]
          simpa [hfz] using IH.1
        · obtain ⟨_, _, _, _, _, _, ⟨t, _, hcall⟩, hwait⟩ :=
            tickDrone_calls_char d p i.now i.selected i.controls hfz
          have hpost : NoRefire (tickDrone d p i.now i.selected i.controls).drone
              (tickDrone d p i.now i.selected i.controls).physics := by
            right
            rw [hwait]
            exact dt_pos p i.now hd
          refine ⟨?_, fun hno2 => absurd hno2 hno⟩
          rw [runTicks_cons]
          simp [hcall, IH.2 hpost]

/-- A pending mission that ends with the drone back at idle status must have
emitted at least one completion callback along the trace. -/
lemma runTicks_pending : ∀ (inputs : List TickInput) (tid : String) (d : Drone)
    (p : DronePhysics), MissionPending tid d p →
    (runTicks d p inputs).drone.status = DroneStatus.idle →
    (runTicks d p inputs).calls ≠ [] := by
  intro inputs
  induction inputs with
  | nil =>
      intro tid d p h hidle
      rw [runTicks_nil] at hidle
      exact absurd hidle h.2.2.1
  | cons i is ih =>
      intro tid d p h hidle
      by_cases hfz : (tickDrone d p i.now i.selected i.controls).completedCalls = []
      · have hpres := MissionPending_step tid d p i.now i.selected i.controls h hfz
        rw [runTicks_cons] at hidle ⊢
        simp only [hfz, List.nil_append]
        exact ih tid _ _ hpres hidle
      · rw [runTicks_cons]
        simp only [ne_eq, List.append_eq_nil]
        intro hboth
        exact hfz hboth.1

lemma tickDrone_battery_le (d : Drone) (p : DronePhysics) (now : ℝ) (sel : Bool) (c : Controls)
    (h : p.lastTick ≤ now) :
    (tickDrone d p now sel c).physics.battery_rem ≤ p.battery_rem := by
  rcases hr : d.assignedRoute with _ | r
  · rw [tickDrone_of_none d p now sel c hr]
  · obtain ⟨_, _, cb, _⟩ := tickDrone_proj d p now sel c r hr
    rw [cb]
    rcases (modeStep_pres d r { p with lastTick := now } (min ((now - p.lastTick) / 1000) 0.1)).2.1
      with hq | hq
    · rw [hq]
    · rw [hq]
      have h0 : (0 : ℝ) ≤ min ((now - p.lastTick) / 1000) 0.1 := dt_nonneg p now h
      have h1 : (0 : ℝ) ≤ (if ({ p with lastTick := now } : DronePhysics).flightMode =
          FlightMode.STABILIZE then (0.01 : ℝ) else 0.05) * min ((now - p.lastTick) / 1000) 0.1 := by
        apply mul_nonneg _ h0
        split_ifs <;> norm_num
      have hb : ({ p with lastTick := now } : DronePhysics).battery_rem = p.battery_rem := rfl
      rw [hb]
      linarith

/-- Battery percent never increases over a tick trace. -/
lemma runTicks_battery : ∀ (inputs : List TickInput) (d : Drone) (p : DronePhysics),
    ChainNow p.lastTick inputs →
    (runTicks d p inputs).physics.battery_rem ≤ p.battery_rem := by
  intro inputs
  induction inputs with
  | nil =>
      intro d p _
      rw [runTicks_nil]
  | cons i is ih =>
      intro d p hc
      obtain ⟨hd, tl⟩ := hc
      have hchain : ChainNow (tickDrone d p i.now i.selected i.controls).physics.lastTick is := by
        rcases tickDrone_lastTick d p i.now i.selected i.controls with hq | hq
        · rw [hq]
          exact tl
        · rw [hq]
          exact chainNow_mono _ _ _ (le_of_lt hd) tl
      have IH := ih (tickDrone d p i.now i.selected i.controls).drone
        (tickDrone d p i.now i.selected i.controls).physics hchain
      have step := tickDrone_battery_le d p i.now i.selected i.controls (le_of_lt hd)
      rw [runTicks_cons]
      exact le_trans IH step

/-! ## Claim theorems -/

/-- C1: a vehicle with an assigned route that is armed in LAND mode with
isReturningHome true and altitude below 0.5 m gets the full terminal mission
reset in that tick: disarmed, mode STABILIZE, isReturningHome cleared,
deliveryWaitTime reset to 0, activeWpIndex reset to -1, external status
idle, and assignedRoute and assignedTaskId cleared. -/
theorem C1_land_terminal_reset (d : Drone) (p : DronePhysics) (now : ℝ) (sel : Bool)
    (c : Controls) (r : List MissionItem)
    (hroute : d.assignedRoute = some r) (harmed : p.armed = true)
    (hmode : p.flightMode = FlightMode.LAND) (halt : p.alt < 0.5)
    (hret : p.isReturningHome = true) :
    (tickDrone d p now sel c).physics.armed = false ∧
    (tickDrone d p now sel c).physics.flightMode = FlightMode.STABILIZE ∧
    (tickDrone d p now sel c).physics.isReturningHome = false ∧
    (tickDrone d p now sel c).physics.deliveryWaitTime = 0 ∧
    (tickDrone d p now sel c).physics.activeWpIndex = -1 ∧
    (tickDrone d p now sel c).drone.status = DroneStatus.idle ∧
    (tickDrone d p now sel c).drone.assignedRoute = none ∧
    (tickDrone d p now sel c).drone.assignedTaskId = none := by
  obtain ⟨c1, c2, cb, clt, carm, cidx, cret, cmode, cstat, croute, ctask⟩ :=
    tickDrone_proj d p now sel c r hroute
  rcases modeStep_cases d r { p with lastTick := now } (min ((now - p.lastTick) / 1000) 0.1) with
    ⟨ha, _⟩ | ⟨_, hA, _, _⟩ | ⟨_, hR, _⟩ |
    ⟨_, _, ⟨_, _, hms⟩ | ⟨_, hrf, _⟩ | ⟨hna, _⟩⟩ | ⟨_, _, _, hnL, _⟩
  · exfalso
    simp [harmed] at ha
  · exfalso
    simp [hmode] at hA
  · exfalso
    simp [hmode] at hR
  · have hmsarmed : (modeStep d r { p with lastTick := now }
        (min ((now - p.lastTick) / 1000) 0.1)).physics.armed = false := by
      rw [hms]
    have hmsmode : (modeStep d r { p with lastTick := now }
        (min ((now - p.lastTick) / 1000) 0.1)).physics.flightMode = FlightMode.STABILIZE := by
      rw [hms]
    have hmsret : (modeStep d r { p with lastTick := now }
        (min ((now - p.lastTick) / 1000) 0.1)).physics.isReturningHome = false := by
      rw [hms]
    refine ⟨carm.trans hmsarmed, ?_, ?_, ?_, ?_, ?_, ?_, ?_⟩
    · rcases cmode with hq | ⟨_, hq⟩
      · exact hq.trans hmsmode
      · rw [hmsarmed] at hq
        exact absurd hq (by simp)
    · rcases cret with hq | hq
      · exact hq.trans hmsret
      · exact hq
    · rw [c2, hms]
    · rw [cidx, hms]
    · rw [cstat, hms]
      rfl
    · rw [croute, hms]
      rfl
    · rw [ctask, hms]
      rfl
  · exfalso
    have : ({ p with lastTick := now } : DronePhysics).isReturningHome = true := hret
    rw [this] at hrf
    exact Bool.noConfusion hrf
  · exfalso
    exact hna halt
  · exfalso
    exact hnL hmode

/-- Concrete witness state for the terminal landing tick. -/
def witnessRoute : List MissionItem :=
  [⟨1, MavCmd.NAV_TAKEOFF, 0, 0, 100⟩, ⟨2, MavCmd.NAV_WAYPOINT, 0, 0.01, 100⟩,
    ⟨3, MavCmd.NAV_LAND, 0, 0.01, 0⟩]

def witnessTelemetry : DroneTelemetry :=
  ⟨0, 0, 0, 0, 0, 100, 0, 0, 0, DroneState.IDLE, 100, 14, 0⟩

def witnessDrone : Drone :=
  { id := "DRONE-1", name := "Drone 1", status := DroneStatus.running,
    currentLocation := ⟨0, 0⟩, assignedTaskId := some "REQ-1",
    assignedRoute := some witnessRoute, homeLocation := ⟨0, 0⟩, color := "#10b981",
    telemetry := witnessTelemetry }

def witnessPhysicsLanding : DronePhysics :=
  { lat := 0, lng := 0, alt := 0.2, heading := 0, speed := 0, vSpeed := 0, roll := 0,
    pitch := 0, battery_v := 25.2, battery_rem := 90, wind_dir := 45, wind_spd := 5,
    lastTick := 0, armed := true, flightMode := FlightMode.LAND, activeWpIndex := 2,
    homeLocation := ⟨0, 0⟩, deliveryWaitTime := 0, isReturningHome := true }

theorem C1_land_terminal_reset_witness :
    (tickDrone witnessDrone witnessPhysicsLanding 100 false noControls).physics.armed = false ∧
    (tickDrone witnessDrone witnessPhysicsLanding 100 false noControls).physics.flightMode =
      FlightMode.STABILIZE ∧
    (tickDrone witnessDrone witnessPhysicsLanding 100 false noControls).physics.isReturningHome =
      false ∧
    (tickDrone witnessDrone witnessPhysicsLanding 100 false noControls).physics.deliveryWaitTime =
      0 ∧
    (tickDrone witnessDrone witnessPhysicsLanding 100 false noControls).physics.activeWpIndex =
      -1 ∧
    (tickDrone witnessDrone witnessPhysicsLanding 100 false noControls).drone.status =
      DroneStatus.idle ∧
    (tickDrone witnessDrone witnessPhysicsLanding 100 false noControls).drone.assignedRoute =
      none ∧
    (tickDrone witnessDrone witnessPhysicsLanding 100 false noControls).drone.assignedTaskId =
      none :=
  C1_land_terminal_reset witnessDrone witnessPhysicsLanding 100 false noControls witnessRoute
    rfl rfl rfl (by norm_num [witnessPhysicsLanding]) rfl

/-- C2: over any mission trace (a dispatched, not-yet-delivering vehicle with
an assigned task, ticked with strictly increasing timestamps), the external
task-completion callback is emitted at most once, exactly once if the trace
ends with the vehicle back at idle status, and any tick that emits it does so
from AUTO mode at a NAV_LAND waypoint below 0.5 m before isReturningHome is
set (in particular never from the final RTL landing, whose mode is LAND). -/
theorem C2_completion_callback_exactly_once (d0 : Drone) (p0 : DronePhysics) (tid : String)
    (inputs : List TickInput)
    (hwait : p0.deliveryWaitTime = 0) (hret : p0.isReturningHome = false)
    (hstatus : d0.status ≠ DroneStatus.idle) (htask : d0.assignedTaskId = some tid)
    (htimes : ChainNow p0.lastTick inputs) :
    (runTicks d0 p0 inputs).calls.length ≤ 1 ∧
    ((runTicks d0 p0 inputs).drone.status = DroneStatus.idle →
      (runTicks d0 p0 inputs).calls.length = 1) ∧
    (∀ d p now sel c, (tickDrone d p now sel c).completedCalls ≠ [] →
      p.armed = true ∧ p.flightMode = FlightMode.AUTO ∧ p.isReturningHome = false ∧
      p.deliveryWaitTime = 0 ∧ p.alt < 0.5 ∧
      ∃ r wp, d.assignedRoute = some r ∧ wp ∈ r ∧ wp.command = MavCmd.NAV_LAND) ∧
    (∀ d p now sel c, p.flightMode = FlightMode.LAND →
      (tickDrone d p now sel c).completedCalls = []) := by
  have hcount := runTicks_count inputs d0 p0 htimes
  refine ⟨hcount.1, ?_, ?_, ?_⟩
  · intro hidle
    have hne := runTicks_pending inputs tid d0 p0 ⟨hwait, hret, hstatus, htask⟩ hidle
    have hpos : 0 < (runTicks d0 p0 inputs).calls.length := List.length_pos.mpr hne
    omega
  · intro d p now sel c h
    obtain ⟨a1, a2, a3, a4, a5, a6, _, _⟩ := tickDrone_calls_char d p now sel c h
    exact ⟨a1, a2, a3, a4, a5, a6⟩
  · intro d p now sel c hland
    by_contra h
    obtain ⟨_, a2, _⟩ := tickDrone_calls_char d p now sel c h
    rw [hland] at a2
    exact FlightMode.noConfusion a2

def witnessDispatchedDrone : Drone := { witnessDrone with status := DroneStatus.dispatched }

def witnessPhysicsStart : DronePhysics :=
  { witnessPhysicsLanding with alt := 0, flightMode := FlightMode.AUTO, activeWpIndex := -1, isReturningHome := false }

theorem C2_completion_callback_exactly_once_witness :
    (runTicks witnessDispatchedDrone witnessPhysicsStart [⟨100, false, noControls⟩]).calls.length ≤ 1 ∧
    ((runTicks witnessDispatchedDrone witnessPhysicsStart [⟨100, false, noControls⟩]).drone.status =
        DroneStatus.idle →
      (runTicks witnessDispatchedDrone witnessPhysicsStart [⟨100, false, noControls⟩]).calls.length = 1) ∧
    (∀ d p now sel c, (tickDrone d p now sel c).completedCalls ≠ [] →
      p.armed = true ∧ p.flightMode = FlightMode.AUTO ∧ p.isReturningHome = false ∧
      p.deliveryWaitTime = 0 ∧ p.alt < 0.5 ∧
      ∃ r wp, d.assignedRoute = some r ∧ wp ∈ r ∧ wp.command = MavCmd.NAV_LAND) ∧
    (∀ d p now sel c, p.flightMode = FlightMode.LAND →
      (tickDrone d p now sel c).completedCalls = []) :=
  C2_completion_callback_exactly_once witnessDispatchedDrone witnessPhysicsStart "REQ-1"
    [⟨100, false, noControls⟩] rfl rfl (by decide) rfl
    (by refine ⟨?_, trivial⟩; norm_num [witnessPhysicsStart, witnessPhysicsLanding])

lemma modeStep_auto_mode (d : Drone) (r : List MissionItem) (p : DronePhysics) (dt : ℝ)
    (harm : p.armed = true) (hfm : p.flightMode = FlightMode.AUTO) :
    ((modeStep d r p dt).physics.flightMode = FlightMode.AUTO ∨
      (modeStep d r p dt).physics.flightMode = FlightMode.RTL) ∧
    (modeStep d r p dt).physics.armed = true := by
  obtain ⟨hbfm, hbar, hbai, hbdw, hbret, hbalt, hblat, hblng, hblt, hbhome, hbbat⟩ :=
    batteryStep_discrete p dt
  rcases modeStep_cases d r p dt with ⟨ha, _⟩ | ⟨_, _, _, hms⟩ | ⟨_, hR, _⟩ | ⟨_, hL, _⟩ |
    ⟨_, _, _, _, hms⟩
  · rw [harm] at ha
    exact Bool.noConfusion ha
  · rw [hms]
    obtain ⟨p2, d1, hpd, hcase⟩ := autoStep_cases d r (batteryStep p dt) dt p.lat p.lng p.alt
    have hp2 : p2.flightMode = FlightMode.AUTO ∧ p2.armed = true := by
      rcases hpd with ⟨hq, _, _⟩ | ⟨hq, _, _⟩ <;> rw [hq] <;>
        exact ⟨hbfm.trans hfm, hbar.trans harm⟩
    rcases hcase with hc | ⟨wp, _, hc⟩
    · rw [hc]
      exact ⟨Or.inl hp2.1, hp2.2⟩
    · rw [hc]
      rcases wpStep_cases d1 r p2 dt wp with ⟨h1, _⟩ | ⟨h1, _⟩ | ⟨h1, _⟩ | ⟨h1, _⟩ | ⟨h1, _⟩ <;>
        rw [h1]
      · exact ⟨Or.inl hp2.1, hp2.2⟩
      · exact ⟨Or.inl hp2.1, hp2.2⟩
      · exact ⟨Or.inl hp2.1, hp2.2⟩
      · exact ⟨Or.inr rfl, rfl⟩
      · exact ⟨Or.inl hp2.1, hp2.2⟩
  · rw [hfm] at hR
    exact FlightMode.noConfusion hR
  · rw [hfm] at hL
    exact FlightMode.noConfusion hL
  · rw [hms]
    exact ⟨Or.inl (hbfm.trans hfm), hbar.trans harm⟩

lemma manualStep_override (d : Drone) (p : DronePhysics) (sel : Bool) (c : Controls) (dt : ℝ)
    (harm : p.armed = true) (hsel : sel = true) (hact : anyActive c = true)
    (hm : p.flightMode = FlightMode.AUTO ∨ p.flightMode = FlightMode.RTL) :
    (manualStep d p sel c dt).1.flightMode = FlightMode.GUIDED ∧
    (manualStep d p sel c dt).1.isReturningHome = false := by
  have hov : manualOverride p c := by
    refine ⟨hact, ?_, ?_⟩
    · rcases hm with h | h <;> rw [h] <;> simp
    · rcases hm with h | h <;> rw [h] <;> simp
  simp only [manualStep, if_pos (And.intro harm hsel), manualFm, manualRet, if_pos hov]
  simp

/-- C3: for an armed, selected vehicle, activating a manual axis while in
AUTO or RTL preempts to GUIDED and clears isReturningHome: immediately in
handleManualControl, and within the same tick for a routed vehicle whose
mode is AUTO at the start of the tick (the tick override block). -/
theorem C3_manual_override_forces_guided :
    (∀ (ctl : Controls) (sp : DronePhysics) (a : ControlAction),
      sp.armed = true →
      (sp.flightMode = FlightMode.AUTO ∨ sp.flightMode = FlightMode.RTL) →
      ∃ q, (handleManualControl ctl (some sp) a true).2 = some q ∧
        q.flightMode = FlightMode.GUIDED ∧ q.isReturningHome = false) ∧
    (∀ (d : Drone) (p : DronePhysics) (now : ℝ) (c : Controls) (r : List MissionItem),
      d.assignedRoute = some r → p.armed = true → anyActive c = true →
      p.flightMode = FlightMode.AUTO →
      (tickDrone d p now true c).physics.flightMode = FlightMode.GUIDED ∧
      (tickDrone d p now true c).physics.isReturningHome = false) := by
  constructor
  · intro ctl sp a harm hm
    refine ⟨{ sp with flightMode := FlightMode.GUIDED, isReturningHome := false }, ?_, rfl, rfl⟩
    rcases hm with h | h <;> simp [handleManualControl, h]
  · intro d p now c r hroute harm hact hmode
    have harm0 : ({ p with lastTick := now } : DronePhysics).armed = true := harm
    have hfm0 : ({ p with lastTick := now } : DronePhysics).flightMode = FlightMode.AUTO := hmode
    obtain ⟨hmm, hma⟩ := modeStep_auto_mode d r { p with lastTick := now }
      (min ((now - p.lastTick) / 1000) 0.1) harm0 hfm0
    obtain ⟨mv1, mv2, _⟩ :=
      moveStepWith_discrete SIM_SPEED_MULT
        (modeStep d r { p with lastTick := now } (min ((now - p.lastTick) / 1000) 0.1)).physics
        (modeStep d r { p with lastTick := now } (min ((now - p.lastTick) / 1000) 0.1)).targetLat
        (modeStep d r { p with lastTick := now } (min ((now - p.lastTick) / 1000) 0.1)).targetLng
        (modeStep d r { p with lastTick := now } (min ((now - p.lastTick) / 1000) 0.1)).targetAlt
        (min ((now - p.lastTick) / 1000) 0.1)
    have hPm : (moveStepWith SIM_SPEED_MULT
        (modeStep d r { p with lastTick := now } (min ((now - p.lastTick) / 1000) 0.1)).physics
        (modeStep d r { p with lastTick := now } (min ((now - p.lastTick) / 1000) 0.1)).targetLat
        (modeStep d r { p with lastTick := now } (min ((now - p.lastTick) / 1000) 0.1)).targetLng
        (modeStep d r { p with lastTick := now } (min ((now - p.lastTick) / 1000) 0.1)).targetAlt
        (min ((now - p.lastTick) / 1000) 0.1)).flightMode = FlightMode.AUTO ∨
        (moveStepWith SIM_SPEED_MULT
        (modeStep d r { p with lastTick := now } (min ((now - p.lastTick) / 1000) 0.1)).physics
        (modeStep d r { p with lastTick := now } (min ((now - p.lastTick) / 1000) 0.1)).targetLat
        (modeStep d r { p with lastTick := now } (min ((now - p.lastTick) / 1000) 0.1)).targetLng
        (modeStep d r { p with lastTick := now } (min ((now - p.lastTick) / 1000) 0.1)).targetAlt
        (min ((now - p.lastTick) / 1000) 0.1)).flightMode = FlightMode.RTL := by
      rcases hmm with hq | hq
      · exact Or.inl (mv1.trans hq)
      · exact Or.inr (mv1.trans hq)
    have hPa : (moveStepWith SIM_SPEED_MULT
        (modeStep d r { p with lastTick := now } (min ((now - p.lastTick) / 1000) 0.1)).physics
        (modeStep d r { p with lastTick := now } (min ((now - p.lastTick) / 1000) 0.1)).targetLat
        (modeStep d r { p with lastTick := now } (min ((now - p.lastTick) / 1000) 0.1)).targetLng
        (modeStep d r { p with lastTick := now } (min ((now - p.lastTick) / 1000) 0.1)).targetAlt
        (min ((now - p.lastTick) / 1000) 0.1)).armed = true := mv2.trans hma
    have hover := manualStep_override
      (telemetryStep (modeStep d r { p with lastTick := now } (min ((now - p.lastTick) / 1000) 0.1)).drone
        (moveStepWith SIM_SPEED_MULT
          (modeStep d r { p with lastTick := now } (min ((now - p.lastTick) / 1000) 0.1)).physics
          (modeStep d r { p with lastTick := now } (min ((now - p.lastTick) / 1000) 0.1)).targetLat
          (modeStep d r { p with lastTick := now } (min ((now - p.lastTick) / 1000) 0.1)).targetLng
          (modeStep d r { p with lastTick := now } (min ((now - p.lastTick) / 1000) 0.1)).targetAlt
          (min ((now - p.lastTick) / 1000) 0.1)))
      (moveStepWith SIM_SPEED_MULT
        (modeStep d r { p with lastTick := now } (min ((now - p.lastTick) / 1000) 0.1)).physics
        (modeStep d r { p with lastTick := now } (min ((now - p.lastTick) / 1000) 0.1)).targetLat
        (modeStep d r { p with lastTick := now } (min ((now - p.lastTick) / 1000) 0.1)).targetLng
        (modeStep d r { p with lastTick := now } (min ((now - p.lastTick) / 1000) 0.1)).targetAlt
        (min ((now - p.lastTick) / 1000) 0.1))
      true c (min ((now - p.lastTick) / 1000) 0.1) hPa rfl hact hPm
    rw [tickDrone_of_some d p now true c r hroute]
    exact hover

def witnessPhysicsAuto : DronePhysics :=
  { witnessPhysicsLanding with flightMode := FlightMode.AUTO, alt := 50, isReturningHome := false }

def oneControl : Controls := ⟨true, false, false, false, false, false, false, false⟩

theorem C3_manual_override_forces_guided_witness :
    (∃ q, (handleManualControl noControls (some witnessPhysicsAuto) ControlAction.up true).2 =
        some q ∧ q.flightMode = FlightMode.GUIDED ∧ q.isReturningHome = false) ∧
    ((tickDrone witnessDrone witnessPhysicsAuto 100 true oneControl).physics.flightMode =
        FlightMode.GUIDED ∧
      (tickDrone witnessDrone witnessPhysicsAuto 100 true oneControl).physics.isReturningHome =
        false) :=
  ⟨C3_manual_override_forces_guided.1 noControls witnessPhysicsAuto ControlAction.up rfl
      (Or.inl rfl),
    C3_manual_override_forces_guided.2 witnessDrone witnessPhysicsAuto 100 oneControl
      witnessRoute rfl rfl rfl rfl⟩

lemma getDist_self (la ln : ℝ) : getDist la ln la ln = 0 := by
  simp only [getDist, sub_self]
  norm_num [toRad, atan2, Real.sqrt_one, Real.arctan_zero]

/-- Positive direction of the delivery-landing branch: a tick from AUTO at
an in-range NAV_LAND waypoint, below 0.5 m, not returning, with a zero wait
timer and an assigned task, emits exactly that task id and starts the wait
timer at dt. -/
lemma tickDrone_fires (d : Drone) (p : DronePhysics) (now : ℝ) (sel : Bool) (c : Controls)
    (r : List MissionItem) (wp : MissionItem) (tid : String)
    (hroute : d.assignedRoute = some r) (htask : d.assignedTaskId = some tid)
    (harm : p.armed = true) (hmode : p.flightMode = FlightMode.AUTO)
    (hidx : p.activeWpIndex ≠ -1) (h0 : 0 ≤ p.activeWpIndex)
    (hlook : r.get? p.activeWpIndex.toNat = some wp)
    (hcmd : wp.command = MavCmd.NAV_LAND)
    (hdist : getDist p.lat p.lng wp.lat wp.lng < WP_RADIUS)
    (hvert : |p.alt - wp.alt| < 2) (halt : p.alt < 0.5)
    (hret : p.isReturningHome = false) (hwait : p.deliveryWaitTime = 0) :
    (tickDrone d p now sel c).completedCalls = [tid] ∧
    (tickDrone d p now sel c).physics.deliveryWaitTime = min ((now - p.lastTick) / 1000) 0.1 := by
  obtain ⟨c1, c2, _⟩ := tickDrone_proj d p now sel c r hroute
  obtain ⟨hbfm, hbar, hbai, hbdw, hbret, hbalt, hblat, hblng, hblt, hbhome, hbbat⟩ :=
    batteryStep_discrete { p with lastTick := now } (min ((now - p.lastTick) / 1000) 0.1)
  have hlen : r.length > 0 := by
    by_contra hl
    push_neg at hl
    have hnil : r = [] := List.eq_nil_of_length_eq_zero (by omega)
    rw [hnil] at hlook
    simp at hlook
  rcases modeStep_cases d r { p with lastTick := now } (min ((now - p.lastTick) / 1000) 0.1) with
    ⟨ha, _⟩ | ⟨_, _, _, hms⟩ | ⟨_, hfm, _⟩ | ⟨_, hfm, _⟩ | ⟨_, hnA, _, _, _⟩
  · rw [show ({ p with lastTick := now } : DronePhysics).armed = p.armed from rfl, harm] at ha
    exact Bool.noConfusion ha
  · have hfalse : ¬ ((batteryStep { p with lastTick := now }
        (min ((now - p.lastTick) / 1000) 0.1)).activeWpIndex = -1) := by
      rw [hbai]
      exact hidx
    have hdisc : (if 0 ≤ (batteryStep { p with lastTick := now }
          (min ((now - p.lastTick) / 1000) 0.1)).activeWpIndex then
        r.get? (batteryStep { p with lastTick := now }
          (min ((now - p.lastTick) / 1000) 0.1)).activeWpIndex.toNat else none) = some wp := by
      rw [hbai]
      show (if 0 ≤ p.activeWpIndex then r.get? p.activeWpIndex.toNat else none) = some wp
      rw [if_pos h0]
      exact hlook
    have hauto : autoStep d r (batteryStep { p with lastTick := now }
          (min ((now - p.lastTick) / 1000) 0.1)) (min ((now - p.lastTick) / 1000) 0.1)
          ({ p with lastTick := now } : DronePhysics).lat
          ({ p with lastTick := now } : DronePhysics).lng
          ({ p with lastTick := now } : DronePhysics).alt =
        wpStep d r (batteryStep { p with lastTick := now }
          (min ((now - p.lastTick) / 1000) 0.1)) (min ((now - p.lastTick) / 1000) 0.1) wp := by
      simp only [autoStep, if_neg hfalse]
      rw [hdisc]
    have hc1 : getDist (batteryStep { p with lastTick := now }
          (min ((now - p.lastTick) / 1000) 0.1)).lat
          (batteryStep { p with lastTick := now }
            (min ((now - p.lastTick) / 1000) 0.1)).lng wp.lat wp.lng < WP_RADIUS ∧
        |(batteryStep { p with lastTick := now }
          (min ((now - p.lastTick) / 1000) 0.1)).alt - wp.alt| < 2 := by
      rw [hblat, hblng, hbalt]
      exact ⟨hdist, hvert⟩
    have hc3 : (batteryStep { p with lastTick := now }
        (min ((now - p.lastTick) / 1000) 0.1)).alt < 0.5 := by
      rw [hbalt]
      exact halt
    have hc4 : (batteryStep { p with lastTick := now }
          (min ((now - p.lastTick) / 1000) 0.1)).isReturningHome = false ∧
        (batteryStep { p with lastTick := now }
          (min ((now - p.lastTick) / 1000) 0.1)).deliveryWaitTime = 0 := by
      rw [hbret, hbdw]
      exact ⟨hret, hwait⟩
    have hwps : wpStep d r (batteryStep { p with lastTick := now }
          (min ((now - p.lastTick) / 1000) 0.1)) (min ((now - p.lastTick) / 1000) 0.1) wp =
        ⟨{ (batteryStep { p with lastTick := now } (min ((now - p.lastTick) / 1000) 0.1)) with
            deliveryWaitTime := min ((now - p.lastTick) / 1000) 0.1 }, d, taskCalls d,
          wp.lat, wp.lng, 0⟩ := by
      simp only [wpStep]
      rw [if_pos hc1, if_pos hcmd, if_pos hc3, if_pos hc4]
    constructor
    · rw [c1, hms, hauto, hwps]
      show taskCalls d = [tid]
      unfold taskCalls
      rw [htask]
    · rw [c2, hms, hauto, hwps]
  · rw [show ({ p with lastTick := now } : DronePhysics).flightMode = p.flightMode from rfl,
      hmode] at hfm
    exact FlightMode.noConfusion hfm
  · rw [show ({ p with lastTick := now } : DronePhysics).flightMode = p.flightMode from rfl,
      hmode] at hfm
    exact FlightMode.noConfusion hfm
  · exact absurd ⟨hmode, hlen⟩ hnA

/-- C10 (amended): a successful setMode to any mode other than RTL sets that
mode and additionally clears isReturningHome and deliveryWaitTime; for every
state whose mode is outside AUTO and RTL (so after a change to LOITER, LAND,
GUIDED or STABILIZE) with both RTL flags cleared, the tick keeps the mode
outside AUTO and RTL, keeps both flags cleared and never emits the completion
callback, so the pending automatic RTL never resumes. (A change to AUTO does
not share this permanence: clearing deliveryWaitTime re-arms the delivery
landing branch, see the counterexample.) -/
theorem C10R_setMode_clears_rtl_flags (d : Drone) (p : DronePhysics) (mode : FlightMode)
    (hsucc : mode = FlightMode.AUTO → (∃ r, d.assignedRoute = some r ∧ r ≠ []) ∧
      p.armed = true)
    (hnot : mode ≠ FlightMode.RTL) :
    ((setMode d p mode).flightMode = mode ∧ (setMode d p mode).isReturningHome = false ∧
      (setMode d p mode).deliveryWaitTime = 0) ∧
    (∀ (d2 : Drone) (p2 : DronePhysics) (now : ℝ) (sel : Bool) (c : Controls),
      p2.flightMode ≠ FlightMode.AUTO → p2.flightMode ≠ FlightMode.RTL →
      p2.isReturningHome = false → p2.deliveryWaitTime = 0 →
      (tickDrone d2 p2 now sel c).physics.flightMode ≠ FlightMode.AUTO ∧
      (tickDrone d2 p2 now sel c).physics.flightMode ≠ FlightMode.RTL ∧
      (tickDrone d2 p2 now sel c).physics.isReturningHome = false ∧
      (tickDrone d2 p2 now sel c).physics.deliveryWaitTime = 0 ∧
      (tickDrone d2 p2 now sel c).completedCalls = []) := by
  constructor
  · have hguard1 : ¬ (mode = FlightMode.AUTO ∧
        (match d.assignedRoute with | none => true | some r => r.isEmpty) = true) := by
      rintro ⟨hA, hempty⟩
      obtain ⟨⟨r, hr, hne⟩, _⟩ := hsucc hA
      rw [hr] at hempty
      simp only [List.isEmpty_iff] at hempty
      exact hne hempty
    have hguard2 : ¬ (mode = FlightMode.AUTO ∧ p.armed = false) := by
      rintro ⟨hA, hfalse⟩
      obtain ⟨_, harm⟩ := hsucc hA
      rw [harm] at hfalse
      exact Bool.noConfusion hfalse
    have hmode2 : ({ p with flightMode := mode } : DronePhysics).flightMode ≠ FlightMode.RTL :=
      hnot
    simp only [setMode, if_neg hguard1, if_neg hguard2, if_pos hmode2]
    simp
  · intro d2 p2 now sel c hA hR hret hwait
    have hcalls : (tickDrone d2 p2 now sel c).completedCalls = [] := by
      by_contra hne
      exact hA (tickDrone_calls_char d2 p2 now sel c hne).2.1
    rcases hr : d2.assignedRoute with _ | r
    · rw [tickDrone_of_none d2 p2 now sel c hr] at hcalls ⊢
      exact ⟨hA, hR, hret, hwait, hcalls⟩
    · obtain ⟨c1, c2, cb, clt, carm, cidx, cret, cmode, cstat, croute, ctask⟩ :=
        tickDrone_proj d2 p2 now sel c r hr
      obtain ⟨hbfm, hbar, hbai, hbdw, hbret, hbalt, hblat, hblng, hblt, hbhome, hbbat⟩ :=
        batteryStep_discrete { p2 with lastTick := now } (min ((now - p2.lastTick) / 1000) 0.1)
      have hmsfacts : ((modeStep d2 r { p2 with lastTick := now }
          (min ((now - p2.lastTick) / 1000) 0.1)).physics.flightMode ≠ FlightMode.AUTO ∧
          (modeStep d2 r { p2 with lastTick := now }
            (min ((now - p2.lastTick) / 1000) 0.1)).physics.flightMode ≠ FlightMode.RTL) ∧
          (modeStep d2 r { p2 with lastTick := now }
            (min ((now - p2.lastTick) / 1000) 0.1)).physics.isReturningHome = false ∧
          (modeStep d2 r { p2 with lastTick := now }
            (min ((now - p2.lastTick) / 1000) 0.1)).physics.deliveryWaitTime = 0 := by
        rcases modeStep_cases d2 r { p2 with lastTick := now }
            (min ((now - p2.lastTick) / 1000) 0.1) with
          ⟨_, hms⟩ | ⟨_, hfm, _, _⟩ | ⟨_, hfm, _⟩ |
          ⟨_, hfm, ⟨_, hret2, hms⟩ | ⟨_, _, hms⟩ | ⟨_, hms⟩⟩ | ⟨_, _, _, _, hms⟩
        · rw [hms]
          exact ⟨⟨hA, hR⟩, hret, hwait⟩
        · exact absurd hfm hA
        · exact absurd hfm hR
        · exact Bool.noConfusion (hret.symm.trans hret2)
        · rw [hms]
          refine ⟨⟨fun h => FlightMode.noConfusion h, fun h => FlightMode.noConfusion h⟩,
            hbret.trans hret, hbdw.trans hwait⟩
        · rw [hms]
          refine ⟨⟨?_, ?_⟩, hbret.trans hret, hbdw.trans hwait⟩
          · rw [hbfm]
            exact hA
          · rw [hbfm]
            exact hR
        · rw [hms]
          refine ⟨⟨?_, ?_⟩, hbret.trans hret, hbdw.trans hwait⟩
          · rw [hbfm]
            exact hA
          · rw [hbfm]
            exact hR
      refine ⟨?_, ?_, ?_, by rw [c2]; exact hmsfacts.2.2, hcalls⟩
      · rcases cmode with hq | ⟨hq, _⟩
        · rw [hq]
          exact hmsfacts.1.1
        · rw [hq]
          simp
      · rcases cmode with hq | ⟨hq, _⟩
        · rw [hq]
          exact hmsfacts.1.2
        · rw [hq]
          simp
      · rcases cret with hq | hq
        · rw [hq]
          exact hmsfacts.2.1
        · exact hq

def witnessPhysicsWaiting : DronePhysics :=
  { witnessPhysicsLanding with flightMode := FlightMode.AUTO, alt := 0.2, isReturningHome := false, deliveryWaitTime := 1.5 }

theorem C10R_setMode_clears_rtl_flags_witness :
    ((setMode witnessDrone witnessPhysicsWaiting FlightMode.LOITER).flightMode =
        FlightMode.LOITER ∧
      (setMode witnessDrone witnessPhysicsWaiting FlightMode.LOITER).isReturningHome = false ∧
      (setMode witnessDrone witnessPhysicsWaiting FlightMode.LOITER).deliveryWaitTime = 0) ∧
    (∀ (d2 : Drone) (p2 : DronePhysics) (now : ℝ) (sel : Bool) (c : Controls),
      p2.flightMode ≠ FlightMode.AUTO → p2.flightMode ≠ FlightMode.RTL →
      p2.isReturningHome = false → p2.deliveryWaitTime = 0 →
      (tickDrone d2 p2 now sel c).physics.flightMode ≠ FlightMode.AUTO ∧
      (tickDrone d2 p2 now sel c).physics.flightMode ≠ FlightMode.RTL ∧
      (tickDrone d2 p2 now sel c).physics.isReturningHome = false ∧
      (tickDrone d2 p2 now sel c).physics.deliveryWaitTime = 0 ∧
      (tickDrone d2 p2 now sel c).completedCalls = []) :=
  C10R_setMode_clears_rtl_flags witnessDrone witnessPhysicsWaiting FlightMode.LOITER
    (fun h => FlightMode.noConfusion h) (fun h => FlightMode.noConfusion h)

/-- Physics state in the middle of the 3-second delivery wait window:
in AUTO at the NAV_LAND waypoint of witnessRoute (lat 0, lng 0.01), below
0.5 m, wait timer at 1.5 s, not yet returning. -/
def cexPhysicsWait : DronePhysics :=
  { witnessPhysicsLanding with lng := 0.01, flightMode := FlightMode.AUTO, alt := 0.2, activeWpIndex := 2, isReturningHome := false, deliveryWaitTime := 1.5 }

/-- The physics state produced by the accepted setMode AUTO request below. -/
def cexPhysicsWaitReset : DronePhysics :=
  { cexPhysicsWait with flightMode := FlightMode.AUTO, isReturningHome := false, deliveryWaitTime := 0 }

/-- C10 counterexample: during the delivery wait window an accepted setMode to
AUTO (a mode the claim includes) stays in AUTO but resets deliveryWaitTime to
0, and the very next tick re-enters the first-delivery-landing branch: the
completion callback fires again and the wait timer restarts, so the 3-second
countdown to the automatic RTL resumes -- the cancellation is not permanent. -/
theorem C10_setMode_auto_refires_callback :
    cexPhysicsWait.flightMode = FlightMode.AUTO ∧
    cexPhysicsWait.isReturningHome = false ∧
    cexPhysicsWait.deliveryWaitTime = 1.5 ∧
    (setMode witnessDrone cexPhysicsWait FlightMode.AUTO).flightMode = FlightMode.AUTO ∧
    (setMode witnessDrone cexPhysicsWait FlightMode.AUTO).deliveryWaitTime = 0 ∧
    (tickDrone witnessDrone (setMode witnessDrone cexPhysicsWait FlightMode.AUTO) 100 false
      noControls).completedCalls = ["REQ-1"] ∧
    0 < (tickDrone witnessDrone (setMode witnessDrone cexPhysicsWait FlightMode.AUTO) 100 false
      noControls).physics.deliveryWaitTime := by
  have hq : setMode witnessDrone cexPhysicsWait FlightMode.AUTO = cexPhysicsWaitReset := by
    simp [setMode, witnessDrone, witnessRoute, cexPhysicsWait, witnessPhysicsLanding,
      cexPhysicsWaitReset]
  have hfire := tickDrone_fires witnessDrone cexPhysicsWaitReset 100 false noControls witnessRoute
    ⟨3, MavCmd.NAV_LAND, 0, 0.01, 0⟩ "REQ-1" rfl rfl rfl rfl
    (by decide) (by decide) rfl rfl
    (by show getDist 0 0.01 0 0.01 < WP_RADIUS
        rw [getDist_self]
        norm_num [WP_RADIUS])
    (by show |(0.2 : ℝ) - 0| < 2
        rw [abs_sub_lt_iff]
        norm_num)
    (by show (0.2 : ℝ) < 0.5
        norm_num)
    rfl rfl
  refine ⟨rfl, rfl, rfl, by rw [hq]; rfl, by rw [hq]; rfl, ?_, ?_⟩
  · rw [hq]
    exact hfire.1
  · rw [hq, hfire.2]
    show (0 : ℝ) < min ((100 - 0) / 1000) 0.1
    norm_num


lemma mapGet_mapSet_self (m : List (String × Drone)) (k : String) (v : Drone) :
    mapGet (mapSet m k v) k = some v := by
  induction m with
  | nil => simp [mapSet, mapGet]
  | cons kv rest ih =>
      obtain ⟨k1, v1⟩ := kv
      by_cases h : k1 = k
      · simp [mapSet, mapGet, h]
      · simp [mapSet, mapGet, h, ih]

lemma mem_mapSet (m : List (String × Drone)) (k : String) (v : Drone) :
    ∀ kv ∈ mapSet m k v, kv = (k, v) ∨ kv ∈ m := by
  induction m with
  | nil =>
      intro kv h
      simp [mapSet] at h
      exact Or.inl h
  | cons kv1 rest ih =>
      intro kv h
      obtain ⟨k1, v1⟩ := kv1
      by_cases hk : k1 = k
      · simp only [mapSet, if_pos hk, List.mem_cons] at h
        rcases h with h | h
        · exact Or.inl h
        · exact Or.inr (List.mem_cons_of_mem _ h)
      · simp only [mapSet, if_neg hk, List.mem_cons] at h
        rcases h with h | h
        · exact Or.inr (by rw [h]; exact List.mem_cons_self _ _)
        · rcases ih kv h with hq | hq
          · exact Or.inl hq
          · exact Or.inr (List.mem_cons_of_mem _ hq)

def cexFleet : List (String × Drone) := [("DRONE-1", witnessDrone)]

/-- C4 counterexample: DRONE-1 has status running (not idle), yet
assignTaskToDrone does not fail and does not leave the vehicle unchanged: it
overwrites the status to dispatched and stores the new task id. -/
theorem C4_assign_nonidle_overwrites :
    (mapGet cexFleet "DRONE-1").map Drone.status = some DroneStatus.running ∧
    (mapGet (assignTaskToDrone cexFleet "DRONE-1" ⟨"REQ-2"⟩ []) "DRONE-1").map Drone.status =
      some DroneStatus.dispatched ∧
    (mapGet (assignTaskToDrone cexFleet "DRONE-1" ⟨"REQ-2"⟩ []) "DRONE-1").map
      Drone.assignedTaskId = some (some "REQ-2") ∧
    (mapGet (assignTaskToDrone cexFleet "DRONE-1" ⟨"REQ-2"⟩ []) "DRONE-1").map Drone.status ≠
      (mapGet cexFleet "DRONE-1").map Drone.status := by
  refine ⟨rfl, rfl, rfl, ?_⟩
  intro h
  rw [show (mapGet (assignTaskToDrone cexFleet "DRONE-1" ⟨"REQ-2"⟩ []) "DRONE-1").map
      Drone.status = some DroneStatus.dispatched from rfl,
    show (mapGet cexFleet "DRONE-1").map Drone.status = some DroneStatus.running from rfl] at h
  simp at h

/-- C4 amended: assignTaskToDrone performs no idle check; for any existing
vehicle, of any status, it sets status dispatched and stores the task id and
route (overwriting a current assignment), and for an unknown id it leaves
the fleet unchanged.  It touches only the coordinator record, never the
physics, so the armed flag is untouched rather than set. -/
theorem C4R_assign_overwrites_any_status (m : List (String × Drone)) (droneId : String)
    (task : MedicineRequest) (route : List MissionItem) :
    (∀ dr, mapGet m droneId = some dr →
      mapGet (assignTaskToDrone m droneId task route) droneId =
        some { dr with status := DroneStatus.dispatched, assignedTaskId := some task.id, assignedRoute := some route }) ∧
    (mapGet m droneId = none → assignTaskToDrone m droneId task route = m) := by
  constructor
  · intro dr h
    unfold assignTaskToDrone
    rw [h]
    exact mapGet_mapSet_self m droneId _
  · intro h
    unfold assignTaskToDrone
    rw [h]

theorem C4R_assign_overwrites_any_status_witness :
    mapGet (assignTaskToDrone cexFleet "DRONE-1" ⟨"REQ-2"⟩ []) "DRONE-1" =
      some { witnessDrone with status := DroneStatus.dispatched, assignedTaskId := some "REQ-2", assignedRoute := some [] } :=
  (C4R_assign_overwrites_any_status cexFleet "DRONE-1" ⟨"REQ-2"⟩ []).1 witnessDrone rfl

/-- C5 counterexample: updateDroneStatus with idle on a vehicle that has an
assigned route and task produces a state violating the invariant (status
idle with a non-null assignedRoute and assignedTaskId). -/
theorem C5_updateStatus_idle_breaks_invariant :
    (mapGet (updateDroneStatus cexFleet "DRONE-1" DroneStatus.idle) "DRONE-1").map Drone.status =
      some DroneStatus.idle ∧
    (mapGet (updateDroneStatus cexFleet "DRONE-1" DroneStatus.idle) "DRONE-1").map
      Drone.assignedRoute = some (some witnessRoute) ∧
    (mapGet (updateDroneStatus cexFleet "DRONE-1" DroneStatus.idle) "DRONE-1").map
      Drone.assignedTaskId = some (some "REQ-1") :=
  ⟨rfl, rfl, rfl⟩

def StatusInv (d : Drone) : Prop :=
  d.status = DroneStatus.idle → d.assignedRoute = none ∧ d.assignedTaskId = none

/-- C5 amended: the invariant (idle implies no route and no task) is
preserved by assignTaskToDrone, by completeDroneTask and by the tick;
updateDroneStatus and updateDroneRoute do not preserve it in general. -/
theorem C5R_invariant_preserved (m : List (String × Drone)) (droneId : String)
    (task : MedicineRequest) (route : List MissionItem) :
    ((∀ kv ∈ m, StatusInv kv.2) →
      ∀ kv ∈ assignTaskToDrone m droneId task route, StatusInv kv.2) ∧
    ((∀ kv ∈ m, StatusInv kv.2) → ∀ kv ∈ completeDroneTask m droneId, StatusInv kv.2) ∧
    (∀ (d : Drone) (p : DronePhysics) (now : ℝ) (sel : Bool) (c : Controls),
      StatusInv d → StatusInv (tickDrone d p now sel c).drone) := by
  refine ⟨?_, ?_, ?_⟩
  · intro hm kv hkv
    unfold assignTaskToDrone at hkv
    rcases hg : mapGet m droneId with _ | dr
    · rw [hg] at hkv
      exact hm kv hkv
    · rw [hg] at hkv
      rcases mem_mapSet m droneId _ kv hkv with h | h
      · rw [h]
        intro hidle
        simp at hidle
      · exact hm kv h
  · intro hm kv hkv
    unfold completeDroneTask at hkv
    rcases hg : mapGet m droneId with _ | dr
    · rw [hg] at hkv
      exact hm kv hkv
    · rw [hg] at hkv
      rcases mem_mapSet m droneId _ kv hkv with h | h
      · rw [h]
        intro _
        exact ⟨rfl, rfl⟩
      · exact hm kv h
  · intro d p now sel c h
    rcases hr : d.assignedRoute with _ | r
    · rw [tickDrone_of_none d p now sel c hr]
      exact h
    · obtain ⟨_, _, _, _, _, _, _, _, cstat, croute, ctask⟩ := tickDrone_proj d p now sel c r hr
      intro hidle
      rw [cstat] at hidle
      rcases (modeStep_pres d r { p with lastTick := now }
          (min ((now - p.lastTick) / 1000) 0.1)).2.2 with hq | hq | ⟨hq, _⟩
      · rw [hq] at hidle
        obtain ⟨hq1, _⟩ := h hidle
        rw [hr] at hq1
        exact Option.noConfusion hq1
      · rw [hq] at hidle
        simp at hidle
      · rw [croute, ctask, hq]
        exact ⟨rfl, rfl⟩

theorem C5R_invariant_preserved_witness :
    (∀ kv ∈ assignTaskToDrone cexFleet "DRONE-1" ⟨"REQ-2"⟩ [], StatusInv kv.2) ∧
    (∀ kv ∈ completeDroneTask cexFleet "DRONE-1", StatusInv kv.2) ∧
    StatusInv (tickDrone witnessDrone witnessPhysicsLanding 100 false noControls).drone :=
  have hinv : ∀ kv ∈ cexFleet, StatusInv kv.2 := by
    intro kv hkv
    simp only [cexFleet, List.mem_singleton] at hkv
    rw [hkv]
    intro hidle
    simp [witnessDrone] at hidle
  have hdinv : StatusInv witnessDrone := by
    intro hidle
    simp [witnessDrone] at hidle
  ⟨(C5R_invariant_preserved cexFleet "DRONE-1" ⟨"REQ-2"⟩ []).1 hinv,
    (C5R_invariant_preserved cexFleet "DRONE-1" ⟨"REQ-2"⟩ []).2.1 hinv,
    (C5R_invariant_preserved cexFleet "DRONE-1" ⟨"REQ-2"⟩ []).2.2 witnessDrone
      witnessPhysicsLanding 100 false noControls hdinv⟩

def cexPhysicsBattery : DronePhysics :=
  { witnessPhysicsLanding with flightMode := FlightMode.STABILIZE, battery_rem := 0.0005, alt := 50, isReturningHome := false }

/-- C6 counterexample: the tick has no lower battery clamp.  Starting from a
battery percent inside [0, 100], one armed tick drives it below 0. -/
theorem C6_battery_no_lower_clamp :
    (0 : ℝ) ≤ cexPhysicsBattery.battery_rem ∧ cexPhysicsBattery.battery_rem ≤ 100 ∧
    (tickDrone witnessDrone cexPhysicsBattery 100 false noControls).physics.battery_rem < 0 := by
  refine ⟨by norm_num [cexPhysicsBattery, witnessPhysicsLanding],
    by norm_num [cexPhysicsBattery, witnessPhysicsLanding], ?_⟩
  obtain ⟨_, _, cb, _⟩ :=
    tickDrone_proj witnessDrone cexPhysicsBattery 100 false noControls witnessRoute rfl
  rw [cb]
  rcases modeStep_cases witnessDrone witnessRoute { cexPhysicsBattery with lastTick := 100 }
      (min ((100 - cexPhysicsBattery.lastTick) / 1000) 0.1) with
    ⟨ha, _⟩ | ⟨_, hfm, _, _⟩ | ⟨_, hfm, _⟩ | ⟨_, hfm, _⟩ | ⟨_, _, _, _, hms⟩
  · simp [cexPhysicsBattery, witnessPhysicsLanding] at ha
  · simp [cexPhysicsBattery, witnessPhysicsLanding] at hfm
  · simp [cexPhysicsBattery, witnessPhysicsLanding] at hfm
  · simp [cexPhysicsBattery, witnessPhysicsLanding] at hfm
  · rw [hms]
    norm_num [batteryStep, cexPhysicsBattery, witnessPhysicsLanding, min_def]

/-- C6 amended: battery percent never increases over a tick trace, so it
stays at or below 100 when it starts there; there is no lower clamp at 0. -/
theorem C6R_battery_upper_bound (d : Drone) (p : DronePhysics) (inputs : List TickInput)
    (hb : p.battery_rem ≤ 100) (hc : ChainNow p.lastTick inputs) :
    (runTicks d p inputs).physics.battery_rem ≤ p.battery_rem ∧
    (runTicks d p inputs).physics.battery_rem ≤ 100 := by
  have h := runTicks_battery inputs d p hc
  exact ⟨h, le_trans h hb⟩

theorem C6R_battery_upper_bound_witness :
    (runTicks witnessDrone witnessPhysicsLanding
      [⟨100, false, noControls⟩]).physics.battery_rem ≤ witnessPhysicsLanding.battery_rem ∧
    (runTicks witnessDrone witnessPhysicsLanding
      [⟨100, false, noControls⟩]).physics.battery_rem ≤ 100 :=
  C6R_battery_upper_bound witnessDrone witnessPhysicsLanding [⟨100, false, noControls⟩]
    (by norm_num [witnessPhysicsLanding])
    (by refine ⟨?_, trivial⟩; norm_num [witnessPhysicsLanding])

/-- An out-of-range waypoint index in AUTO makes the waypoint lookup yield
nothing: the tick leaves the index unchanged and the coordinator record
untouched (no clamp, no completion, no fault). -/
lemma tickDrone_oob (d : Drone) (p : DronePhysics) (now : ℝ) (sel : Bool) (c : Controls)
    (r : List MissionItem) (hroute : d.assignedRoute = some r)
    (harm : p.armed = true) (hmode : p.flightMode = FlightMode.AUTO)
    (hlen : 0 < r.length) (hoob : (r.length : ℤ) ≤ p.activeWpIndex) :
    (tickDrone d p now sel c).physics.activeWpIndex = p.activeWpIndex ∧
    (tickDrone d p now sel c).drone.status = d.status ∧
    (tickDrone d p now sel c).drone.assignedRoute = d.assignedRoute ∧
    (tickDrone d p now sel c).drone.assignedTaskId = d.assignedTaskId := by
  obtain ⟨c1, c2, cb, clt, carm, cidx, cret, cmode, cstat, croute, ctask⟩ :=
    tickDrone_proj d p now sel c r hroute
  obtain ⟨hbfm, hbar, hbai, hbdw, hbret, hbalt, hblat, hblng, hblt, hbhome, hbbat⟩ :=
    batteryStep_discrete { p with lastTick := now } (min ((now - p.lastTick) / 1000) 0.1)
  rcases modeStep_cases d r { p with lastTick := now } (min ((now - p.lastTick) / 1000) 0.1) with
    ⟨ha, _⟩ | ⟨_, _, _, hms⟩ | ⟨_, hfm, _⟩ | ⟨_, hfm, _⟩ | ⟨_, hnA, _, _, _⟩
  · rw [show ({ p with lastTick := now } : DronePhysics).armed = p.armed from rfl, harm] at ha
    exact Bool.noConfusion ha
  · obtain ⟨p2, d1, hpd, hcase⟩ :=
      autoStep_cases d r (batteryStep { p with lastTick := now } (min ((now - p.lastTick) / 1000) 0.1))
        (min ((now - p.lastTick) / 1000) 0.1)
        ({ p with lastTick := now } : DronePhysics).lat
        ({ p with lastTick := now } : DronePhysics).lng
        ({ p with lastTick := now } : DronePhysics).alt
    have hidx : (batteryStep { p with lastTick := now }
        (min ((now - p.lastTick) / 1000) 0.1)).activeWpIndex = p.activeWpIndex := hbai
    rcases hpd with ⟨hp2, hd1, _⟩ | ⟨_, _, hisneg⟩
    swap
    · exfalso
      rw [hidx] at hisneg
      omega
    have hp2idx : p2.activeWpIndex = p.activeWpIndex := by
      rw [hp2]
      exact hidx
    have hnone : (if 0 ≤ p2.activeWpIndex then r.get? p2.activeWpIndex.toNat else none) = none := by
      rw [if_pos (by rw [hp2idx]; omega)]
      apply List.get?_eq_none.mpr
      rw [hp2idx]
      omega
    rcases hcase with hc | ⟨wp, hw, hc⟩
    · have hmsq := hms.trans hc
      refine ⟨?_, ?_, ?_, ?_⟩
      · rw [cidx, hmsq]
        exact hp2idx
      · rw [cstat, hmsq]
        rw [hd1]
      · rw [croute, hmsq]
        rw [hd1]
      · rw [ctask, hmsq]
        rw [hd1]
    · rw [hnone] at hw
      exact Option.noConfusion hw
  · rw [show ({ p with lastTick := now } : DronePhysics).flightMode = p.flightMode from rfl,
      hmode] at hfm
    exact FlightMode.noConfusion hfm
  · rw [show ({ p with lastTick := now } : DronePhysics).flightMode = p.flightMode from rfl,
      hmode] at hfm
    exact FlightMode.noConfusion hfm
  · exact absurd ⟨hmode, hlen⟩ hnA

def cexPhysicsOob : DronePhysics :=
  { witnessPhysicsLanding with flightMode := FlightMode.AUTO, activeWpIndex := 3, alt := 50, isReturningHome := false }

/-- C7 counterexample: with the 3-element route and activeWpIndex 3, the
tick neither clamps the index into range, nor resets it to -1, nor marks the
mission complete: it just holds, leaving the index out of range. -/
theorem C7_oob_neither_clamped_nor_completed :
    ¬ ((0 ≤ (tickDrone witnessDrone cexPhysicsOob 100 false noControls).physics.activeWpIndex ∧
        (tickDrone witnessDrone cexPhysicsOob 100 false noControls).physics.activeWpIndex <
          (witnessRoute.length : ℤ)) ∨
      (tickDrone witnessDrone cexPhysicsOob 100 false noControls).physics.activeWpIndex = -1 ∨
      (tickDrone witnessDrone cexPhysicsOob 100 false noControls).drone.status =
        DroneStatus.idle) := by
  obtain ⟨hidx, hstat, _, _⟩ := tickDrone_oob witnessDrone cexPhysicsOob 100 false noControls
    witnessRoute rfl rfl rfl (by norm_num [witnessRoute])
    (by norm_num [witnessRoute, cexPhysicsOob, witnessPhysicsLanding])
  rw [hidx, hstat]
  norm_num [cexPhysicsOob, witnessPhysicsLanding, witnessRoute, witnessDrone]
  decide

/-- C7 amended: the tick does not fault on an out-of-range index; the lookup
is empty, the vehicle holds position and the index and coordinator state are
left unchanged (neither clamped nor treated as mission complete). -/
theorem C7R_oob_index_holds (d : Drone) (p : DronePhysics) (now : ℝ) (sel : Bool)
    (c : Controls) (r : List MissionItem) (hroute : d.assignedRoute = some r)
    (harm : p.armed = true) (hmode : p.flightMode = FlightMode.AUTO)
    (hlen : 0 < r.length) (hoob : (r.length : ℤ) ≤ p.activeWpIndex) :
    (tickDrone d p now sel c).physics.activeWpIndex = p.activeWpIndex ∧
    (tickDrone d p now sel c).drone.status = d.status ∧
    (tickDrone d p now sel c).drone.assignedRoute = d.assignedRoute ∧
    (tickDrone d p now sel c).drone.assignedTaskId = d.assignedTaskId :=
  tickDrone_oob d p now sel c r hroute harm hmode hlen hoob

theorem C7R_oob_index_holds_witness :
    (tickDrone witnessDrone cexPhysicsOob 100 false noControls).physics.activeWpIndex =
      cexPhysicsOob.activeWpIndex ∧
    (tickDrone witnessDrone cexPhysicsOob 100 false noControls).drone.status =
      witnessDrone.status ∧
    (tickDrone witnessDrone cexPhysicsOob 100 false noControls).drone.assignedRoute =
      witnessDrone.assignedRoute ∧
    (tickDrone witnessDrone cexPhysicsOob 100 false noControls).drone.assignedTaskId =
      witnessDrone.assignedTaskId :=
  C7R_oob_index_holds witnessDrone cexPhysicsOob 100 false noControls witnessRoute rfl rfl rfl
    (by norm_num [witnessRoute]) (by norm_num [witnessRoute, cexPhysicsOob, witnessPhysicsLanding])

def cexPhysicsClimb : DronePhysics :=
  { witnessPhysicsLanding with flightMode := FlightMode.GUIDED, alt := 0, vSpeed := 0, isReturningHome := false }

/-- C8 counterexample: one integrator step at multiplier 4 over dt = 0.025
and one step at multiplier 1 over dt = 0.1 cover the same simulated time
(0.025 times 4 equals 0.1 times 1) and make identical horizontal progress,
yet they reach different altitudes, because the first-order vertical-speed
lag is integrated with the unscaled dt while everything else is scaled.
The trajectory shape therefore depends on the multiplier. -/
theorem C8_sim_mult_changes_vertical_shape :
    (0.025 : ℝ) * 4 = 0.1 * 1 ∧
    (moveStepWith 4 cexPhysicsClimb 0 0 100 0.025).lat =
      (moveStepWith 1 cexPhysicsClimb 0 0 100 0.1).lat ∧
    (moveStepWith 4 cexPhysicsClimb 0 0 100 0.025).lng =
      (moveStepWith 1 cexPhysicsClimb 0 0 100 0.1).lng ∧
    (moveStepWith 4 cexPhysicsClimb 0 0 100 0.025).alt ≠
      (moveStepWith 1 cexPhysicsClimb 0 0 100 0.1).alt := by
  refine ⟨by norm_num, ?_, ?_, ?_⟩
  · simp [moveStepWith, cexPhysicsClimb, witnessPhysicsLanding, getBearing, toRad, toDeg,
      atan2, jsMod, rtrunc, wrap180, rsign]
    norm_num [max_def, min_def]
  · simp [moveStepWith, cexPhysicsClimb, witnessPhysicsLanding, getBearing, toRad, toDeg,
      atan2, jsMod, rtrunc, wrap180, rsign]
    norm_num [max_def, min_def]
  · have h4 : (moveStepWith 4 cexPhysicsClimb 0 0 100 0.025).alt = 0.025 := by
      simp [moveStepWith, cexPhysicsClimb, witnessPhysicsLanding, getBearing, toRad, toDeg,
        atan2, jsMod, rtrunc, wrap180, rsign]
      norm_num [max_def, min_def]
    have h1 : (moveStepWith 1 cexPhysicsClimb 0 0 100 0.1).alt = 0.1 := by
      simp [moveStepWith, cexPhysicsClimb, witnessPhysicsLanding, getBearing, toRad, toDeg,
        atan2, jsMod, rtrunc, wrap180, rsign]
      norm_num [max_def, min_def]
    rw [h4, h1]
    norm_num

/-- C8 amended: when the vertical speed has already settled at its clamped
target, one step at multiplier M over dt equals one step at multiplier 1
over M times dt: the altitude integration, turn rate and horizontal
translation all scale uniformly; only the vertical-speed lag update uses the
unscaled dt. -/
theorem C8R_sim_mult_scales_after_vspeed_settles (M : ℝ) (p : DronePhysics)
    (a b tAlt dt : ℝ) (hv : p.vSpeed = max (-3) (min 5 (tAlt - p.alt))) :
    moveStepWith M p a b tAlt dt = moveStepWith 1 p a b tAlt (dt * M) := by
  simp only [moveStepWith]
  rw [← hv]
  simp only [sub_self, zero_mul, mul_zero, add_zero, mul_one, mul_assoc]

theorem C8R_sim_mult_scales_after_vspeed_settles_witness :
    moveStepWith 4 { cexPhysicsClimb with vSpeed := 5 } 0 0 100 0.025 =
      moveStepWith 1 { cexPhysicsClimb with vSpeed := 5 } 0 0 100 (0.025 * 4) :=
  C8R_sim_mult_scales_after_vspeed_settles 4 { cexPhysicsClimb with vSpeed := 5 } 0 0 100 0.025
    (by norm_num [cexPhysicsClimb, witnessPhysicsLanding, max_def, min_def])

lemma toRad_toDeg (x : ℝ) : toRad (toDeg x) = x := by
  unfold toRad toDeg
  field_simp

lemma toDeg_toRad (x : ℝ) : toDeg (toRad x) = x := by
  unfold toRad toDeg
  field_simp

lemma toRad_sub (a b : ℝ) : toRad (a - b) = toRad a - toRad b := by
  unfold toRad
  ring

lemma sin_half_sq (u : ℝ) : Real.sin (u / 2) ^ 2 = (1 - Real.cos u) / 2 := by
  have h := Real.cos_sq (u / 2)
  rw [show 2 * (u / 2) = u by ring] at h
  nlinarith [Real.sin_sq_add_cos_sq (u / 2)]

lemma cos_half_sq (u : ℝ) : Real.cos (u / 2) ^ 2 = (1 + Real.cos u) / 2 := by
  have h := Real.cos_sq (u / 2)
  rw [show 2 * (u / 2) = u by ring] at h
  linarith

/-- Cosine and sine of the two-argument arctangent at a point of known norm. -/
lemma cos_sin_atan2 (y x r : ℝ) (hr : 0 < r) (hxy : x ^ 2 + y ^ 2 = r ^ 2) :
    Real.cos (atan2 y x) = x / r ∧ Real.sin (atan2 y x) = y / r := by
  have hrne : r ≠ 0 := ne_of_gt hr
  unfold atan2
  split_ifs with hx1 hx2 hy1 hy2 hy3
  · have hxne : x ≠ 0 := ne_of_gt hx1
    have hs : Real.sqrt (1 + (y / x) ^ 2) = r / x := by
      rw [show 1 + (y / x) ^ 2 = (r / x) ^ 2 by field_simp; linarith]
      exact Real.sqrt_sq (by positivity)
    constructor
    · rw [Real.cos_arctan, hs, one_div_div]
    · rw [Real.sin_arctan, hs]
      field_simp
  · have hxne : x ≠ 0 := ne_of_lt hx2
    have hs : Real.sqrt (1 + (y / x) ^ 2) = r / (-x) := by
      rw [show 1 + (y / x) ^ 2 = (r / (-x)) ^ 2 by field_simp; linarith]
      exact Real.sqrt_sq (div_nonneg hr.le (by linarith))
    constructor
    · rw [Real.cos_add, Real.cos_pi, Real.sin_pi, Real.cos_arctan, Real.sin_arctan, hs]
      field_simp
    · rw [Real.sin_add, Real.cos_pi, Real.sin_pi, Real.cos_arctan, Real.sin_arctan, hs]
      field_simp
      ring
  · have hxne : x ≠ 0 := ne_of_lt hx2
    have hs : Real.sqrt (1 + (y / x) ^ 2) = r / (-x) := by
      rw [show 1 + (y / x) ^ 2 = (r / (-x)) ^ 2 by field_simp; linarith]
      exact Real.sqrt_sq (div_nonneg hr.le (by linarith))
    constructor
    · rw [Real.cos_sub, Real.cos_pi, Real.sin_pi, Real.cos_arctan, Real.sin_arctan, hs]
      field_simp
    · rw [Real.sin_sub, Real.cos_pi, Real.sin_pi, Real.cos_arctan, Real.sin_arctan, hs]
      field_simp
      ring
  · have hx0 : x = 0 := le_antisymm (not_lt.1 hx1) (not_lt.1 hx2)
    have hry : r = y := by nlinarith
    constructor
    · rw [Real.cos_pi_div_two, hx0, zero_div]
    · rw [Real.sin_pi_div_two, hry, div_self (ne_of_gt hy2)]
  · have hx0 : x = 0 := le_antisymm (not_lt.1 hx1) (not_lt.1 hx2)
    have hry : r = -y := by nlinarith
    constructor
    · rw [Real.cos_neg, Real.cos_pi_div_two, hx0, zero_div]
    · rw [Real.sin_neg, Real.sin_pi_div_two, hry, div_neg, div_self (ne_of_lt hy3)]
  · exfalso
    have hx0 : x = 0 := le_antisymm (not_lt.1 hx1) (not_lt.1 hx2)
    have hy0 : y = 0 := le_antisymm (not_lt.1 hy2) (not_lt.1 hy3)
    rw [hx0, hy0] at hxy
    nlinarith

/-- atan2 is invariant under scaling both arguments by a positive factor. -/
lemma atan2_smul (k y x : ℝ) (hk : 0 < k) : atan2 (k * y) (k * x) = atan2 y x := by
  have hpos : ∀ z : ℝ, 0 < k * z ↔ 0 < z := by
    intro z
    constructor <;> intro h <;> nlinarith
  have hneg : ∀ z : ℝ, k * z < 0 ↔ z < 0 := by
    intro z
    constructor <;> intro h <;> nlinarith
  have hge : 0 ≤ k * y ↔ 0 ≤ y := by
    constructor <;> intro h <;> nlinarith
  have hdiv : k * y / (k * x) = y / x := mul_div_mul_left y x (ne_of_gt hk)
  unfold atan2
  simp only [hpos, hneg, hge, hdiv]

/-- atan2 recovers an angle from its sine and cosine on the interval
from -pi exclusive to pi inclusive. -/
lemma atan2_sin_cos (θ : ℝ) (h1 : -Real.pi < θ) (h2 : θ ≤ Real.pi) :
    atan2 (Real.sin θ) (Real.cos θ) = θ := by
  have hπ := Real.pi_pos
  unfold atan2
  split_ifs with hc1 hc2 hs1 hs2 hs3
  · have hl : -(Real.pi / 2) < θ := by
      by_contra h
      push_neg at h
      have h3 : Real.pi / 2 ≤ -θ := by linarith
      have h4 : -θ ≤ Real.pi + Real.pi / 2 := by linarith
      have h5 := Real.cos_nonpos_of_pi_div_two_le_of_le h3 h4
      rw [Real.cos_neg] at h5
      linarith
    have hu : θ < Real.pi / 2 := by
      by_contra h
      push_neg at h
      have h5 := Real.cos_nonpos_of_pi_div_two_le_of_le h (by linarith)
      linarith
    rw [← Real.tan_eq_sin_div_cos, Real.arctan_tan hl hu]
  · have h0 : 0 ≤ θ := by
      by_contra h
      push_neg at h
      have h5 := Real.sin_neg_of_neg_of_neg_pi_lt h h1
      linarith
    have hπ2 : Real.pi / 2 < θ := by
      by_contra h
      push_neg at h
      have h5 := Real.cos_nonneg_of_mem_Icc ⟨by linarith, h⟩
      linarith
    rw [← Real.tan_eq_sin_div_cos]
    have htan : Real.tan θ = Real.tan (θ - Real.pi) := (Real.tan_periodic.sub_eq θ).symm
    rw [htan, Real.arctan_tan (by linarith) (by linarith)]
    ring
  · have hsneg : Real.sin θ < 0 := not_le.1 hs1
    have h0 : θ < 0 := by
      by_contra h
      push_neg at h
      have h5 := Real.sin_nonneg_of_nonneg_of_le_pi h h2
      linarith
    have hπ2 : θ < -(Real.pi / 2) := by
      by_contra h
      push_neg at h
      have h5 := Real.cos_nonneg_of_mem_Icc ⟨h, by linarith⟩
      linarith
    rw [← Real.tan_eq_sin_div_cos]
    have htan : Real.tan θ = Real.tan (θ + Real.pi) := (Real.tan_periodic θ).symm
    rw [htan, Real.arctan_tan (by linarith) (by linarith)]
    ring
  · have hc0 : Real.cos θ = 0 := le_antisymm (not_lt.1 hc1) (not_lt.1 hc2)
    obtain ⟨k, hk⟩ := Real.cos_eq_zero_iff.1 hc0
    have hk4 : (2 * (k : ℝ) + 1) ≤ 2 := by nlinarith
    have hk5 : (-2 : ℝ) < 2 * (k : ℝ) + 1 := by nlinarith
    have hk6 : (2 * k + 1 : ℤ) ≤ 2 := by exact_mod_cast hk4
    have hk7 : (-2 : ℤ) < 2 * k + 1 := by exact_mod_cast hk5
    have hk8 : k = 0 ∨ k = -1 := by omega
    rcases hk8 with h | h
    · rw [h] at hk
      push_cast at hk
      linarith
    · exfalso
      rw [h] at hk
      push_cast at hk
      have hθ : θ = -(Real.pi / 2) := by linarith
      rw [hθ, Real.sin_neg, Real.sin_pi_div_two] at hs2
      linarith
  · have hc0 : Real.cos θ = 0 := le_antisymm (not_lt.1 hc1) (not_lt.1 hc2)
    obtain ⟨k, hk⟩ := Real.cos_eq_zero_iff.1 hc0
    have hk4 : (2 * (k : ℝ) + 1) ≤ 2 := by nlinarith
    have hk5 : (-2 : ℝ) < 2 * (k : ℝ) + 1 := by nlinarith
    have hk6 : (2 * k + 1 : ℤ) ≤ 2 := by exact_mod_cast hk4
    have hk7 : (-2 : ℤ) < 2 * k + 1 := by exact_mod_cast hk5
    have hk8 : k = 0 ∨ k = -1 := by omega
    rcases hk8 with h | h
    · exfalso
      rw [h] at hk
      push_cast at hk
      have hθ : θ = Real.pi / 2 := by linarith
      rw [hθ, Real.sin_pi_div_two] at hs3
      linarith
    · rw [h] at hk
      push_cast at hk
      linarith
  · exfalso
    have hc0 : Real.cos θ = 0 := le_antisymm (not_lt.1 hc1) (not_lt.1 hc2)
    have hs0 : Real.sin θ = 0 := le_antisymm (not_lt.1 hs2) (not_lt.1 hs3)
    have h5 := Real.sin_sq_add_cos_sq θ
    rw [hs0, hc0] at h5
    norm_num at h5

set_option maxHeartbeats 1600000 in
/-- The geodesy round trip at the level of the radian intermediates: feeding
the forward-projected point (given by its arcsin latitude and atan2 longitude
increment) back into getBearing and getDist recovers the bearing and the
distance exactly. -/
lemma roundtrip_deg (lat lng b d φ2 L : ℝ)
    (hφ2 : φ2 = Real.arcsin (Real.sin (toRad lat) * Real.cos (d / 6371e3) +
      Real.cos (toRad lat) * Real.sin (d / 6371e3) * Real.cos (toRad b)))
    (hL : L = atan2 (Real.sin (toRad b) * Real.sin (d / 6371e3) * Real.cos (toRad lat))
      (Real.cos (d / 6371e3) - Real.sin (toRad lat) * Real.sin φ2))
    (hlat : |lat| ≤ 89) (hb0 : 0 ≤ b) (hb1 : b < 360) (hd0 : 0 < d) (hd1 : d ≤ 50000) :
    getBearing lat lng (toDeg φ2) (toDeg (toRad lng + L)) = b ∧
    getDist lat lng (toDeg φ2) (toDeg (toRad lng + L)) = d := by
  have hπ := Real.pi_pos
  have hπ3 : (3 : ℝ) < Real.pi := Real.pi_gt_three
  have h180 : (0 : ℝ) < 180 := by norm_num
  set φ1 := toRad lat with hφ1def
  set θ := toRad b with hθdef
  set δ := d / 6371e3 with hδdef
  set S := Real.sin φ1 * Real.cos δ + Real.cos φ1 * Real.sin δ * Real.cos θ with hSdef
  clear_value φ1 θ δ S
  have hφ1abs : |φ1| ≤ 89 * Real.pi / 180 := by
    rw [hφ1def]
    unfold toRad
    rw [abs_div, abs_mul, abs_of_pos hπ, abs_of_pos h180]
    gcongr
  have hδ0 : 0 < δ := by
    rw [hδdef]
    exact div_pos hd0 (by norm_num)
  have hδub : δ < 0.008 := by
    rw [hδdef, div_lt_iff (by norm_num : (0:ℝ) < 6371e3)]
    linarith
  have hπ180 : (0.008 : ℝ) < Real.pi / 180 := by linarith
  have hsum : |φ1| + δ < Real.pi / 2 := by
    have h89 : 89 * Real.pi / 180 + Real.pi / 180 = Real.pi / 2 := by ring
    linarith
  have hφ1lt : |φ1| < Real.pi / 2 := by
    have := abs_nonneg φ1
    linarith
  have hφ1a : -(Real.pi / 2) < φ1 := by
    have h := abs_lt.1 hφ1lt
    linarith [h.1]
  have hφ1b : φ1 < Real.pi / 2 := (abs_lt.1 hφ1lt).2
  have hc1 : 0 < Real.cos φ1 := Real.cos_pos_of_mem_Ioo ⟨hφ1a, hφ1b⟩
  have hsδ : 0 < Real.sin δ := Real.sin_pos_of_pos_of_lt_pi hδ0 (by linarith)
  have hcδhalf : 0 < Real.cos (δ / 2) := Real.cos_pos_of_mem_Ioo ⟨by linarith, by linarith⟩
  have hφδ1 : φ1 + δ < Real.pi / 2 := by
    have := le_abs_self φ1
    linarith
  have hφδ2 : -(Real.pi / 2) < φ1 + δ := by linarith
  have hφδ3 : -(Real.pi / 2) < φ1 - δ := by
    have := neg_abs_le φ1
    linarith
  have hφδ4 : φ1 - δ < Real.pi / 2 := by linarith
  have hSub2 : S ≤ Real.sin (φ1 + δ) := by
    have key : 0 ≤ Real.cos φ1 * Real.sin δ * (1 - Real.cos θ) :=
      mul_nonneg (mul_pos hc1 hsδ).le (by linarith [Real.cos_le_one θ])
    have key2 : Real.cos φ1 * Real.sin δ * (1 - Real.cos θ) =
        Real.cos φ1 * Real.sin δ - Real.cos φ1 * Real.sin δ * Real.cos θ := by ring
    rw [key2] at key
    rw [Real.sin_add, hSdef]
    linarith
  have hSlb2 : Real.sin (φ1 - δ) ≤ S := by
    have key : 0 ≤ Real.cos φ1 * Real.sin δ * (1 + Real.cos θ) :=
      mul_nonneg (mul_pos hc1 hsδ).le (by linarith [Real.neg_one_le_cos θ])
    have key2 : Real.cos φ1 * Real.sin δ * (1 + Real.cos θ) =
        Real.cos φ1 * Real.sin δ + Real.cos φ1 * Real.sin δ * Real.cos θ := by ring
    rw [key2] at key
    rw [Real.sin_sub, hSdef]
    linarith
  have hS1 : S < 1 := by
    have hmono := Real.strictMonoOn_sin (Set.mem_Icc.2 ⟨by linarith, by linarith⟩)
      (Set.mem_Icc.2 ⟨by linarith, le_refl _⟩) hφδ1
    rw [Real.sin_pi_div_two] at hmono
    linarith
  have hSm1 : -1 < S := by
    have hmono := Real.strictMonoOn_sin (Set.mem_Icc.2 ⟨le_refl _, by linarith⟩)
      (Set.mem_Icc.2 ⟨by linarith, by linarith⟩) hφδ3
    rw [Real.sin_neg, Real.sin_pi_div_two] at hmono
    linarith
  have hsinφ2 : Real.sin φ2 = S := by
    rw [hφ2]
    exact Real.sin_arcsin (by linarith) (by linarith)
  have hcos2 : Real.cos φ2 = Real.sqrt (1 - S ^ 2) := by
    rw [hφ2]
    exact Real.cos_arcsin S
  have hSsq : 0 < 1 - S ^ 2 := by
    have h1S : 0 < (1 - S) * (1 + S) := mul_pos (by linarith) (by linarith)
    nlinarith [h1S]
  have hc2 : 0 < Real.cos φ2 := by
    rw [hcos2]
    exact Real.sqrt_pos.2 hSsq
  have hc2sq : Real.cos φ2 ^ 2 = 1 - S ^ 2 := by
    rw [hcos2]
    exact Real.sq_sqrt hSsq.le
  rw [hsinφ2] at hL
  have hpy1 := Real.sin_sq_add_cos_sq φ1
  have hpy2 := Real.sin_sq_add_cos_sq θ
  have hpy3 := Real.sin_sq_add_cos_sq δ
  have hnorm : (Real.cos δ - Real.sin φ1 * S) ^ 2 +
      (Real.sin θ * Real.sin δ * Real.cos φ1) ^ 2 =
      (Real.cos φ1 * Real.cos φ2) ^ 2 := by
    have hexp : (Real.cos φ1 * Real.cos φ2) ^ 2 = Real.cos φ1 ^ 2 * (1 - S ^ 2) := by
      rw [mul_pow, hc2sq]
    rw [hexp, hSdef]
    linear_combination ((Real.sin φ1 * Real.cos δ + Real.cos φ1 * Real.sin δ * Real.cos θ) ^ 2 -
      Real.cos δ ^ 2) * hpy1 + Real.cos φ1 ^ 2 * Real.sin δ ^ 2 * hpy2 +
      Real.cos φ1 ^ 2 * hpy3
  have hr12 : 0 < Real.cos φ1 * Real.cos φ2 := mul_pos hc1 hc2
  obtain ⟨hcL, hsL⟩ := cos_sin_atan2 (Real.sin θ * Real.sin δ * Real.cos φ1)
    (Real.cos δ - Real.sin φ1 * S) (Real.cos φ1 * Real.cos φ2) hr12 hnorm
  rw [← hL] at hcL hsL
  have hc1ne : Real.cos φ1 ≠ 0 := ne_of_gt hc1
  have hc2ne : Real.cos φ2 ≠ 0 := ne_of_gt hc2
  have hdl : toRad (toDeg (toRad lng + L) - lng) = L := by
    rw [toRad_sub, toRad_toDeg]
    ring
  constructor
  · -- bearing round trip
    simp only [getBearing]
    rw [hdl, toRad_toDeg, ← hφ1def]
    have hy : Real.sin L * Real.cos φ2 = Real.sin δ * Real.sin θ := by
      rw [hsL]
      field_simp
      ring
    have hx2 : Real.cos φ1 * Real.sin φ2 - Real.sin φ1 * Real.cos φ2 * Real.cos L =
        Real.sin δ * Real.cos θ := by
      rw [hsinφ2, hcL, hSdef]
      field_simp
      linear_combination (Real.cos φ1 * Real.sin δ * Real.cos θ * Real.cos φ2 +
        Real.sin φ1 * Real.cos δ * Real.cos φ2) * hpy1
    rw [hy, hx2, atan2_smul (Real.sin δ) (Real.sin θ) (Real.cos θ) hsδ]
    have hθ0 : 0 ≤ θ := by
      rw [hθdef]
      unfold toRad
      exact div_nonneg (mul_nonneg hb0 hπ.le) (by norm_num)
    have hθub : θ < 2 * Real.pi := by
      rw [hθdef]
      unfold toRad
      rw [div_lt_iff h180]
      have h360 := (mul_lt_mul_right hπ).2 hb1
      linarith
    rcases le_or_lt θ Real.pi with hcase | hcase
    · rw [atan2_sin_cos θ (by linarith) hcase]
      rw [hθdef, toDeg_toRad]
      have hb180 : b ≤ 180 := by
        rw [hθdef] at hcase
        unfold toRad at hcase
        rw [div_le_iff h180] at hcase
        exact (mul_le_mul_right hπ).1 (by linarith)
      unfold jsMod rtrunc
      rw [if_pos (show (0:ℝ) ≤ (b + 360) / 360 from div_nonneg (by linarith) (by norm_num))]
      rw [show ⌊(b + 360) / 360⌋ = 1 from Int.floor_eq_iff.2
        ⟨by push_cast; rw [le_div_iff (by norm_num : (0:ℝ) < 360)]; linarith,
         by push_cast; rw [div_lt_iff (by norm_num : (0:ℝ) < 360)]; linarith⟩]
      push_cast
      ring
    · have hsub1 : Real.sin θ = Real.sin (θ - 2 * Real.pi) := (Real.sin_sub_two_pi θ).symm
      have hsub2 : Real.cos θ = Real.cos (θ - 2 * Real.pi) := (Real.cos_sub_two_pi θ).symm
      rw [hsub1, hsub2, atan2_sin_cos (θ - 2 * Real.pi) (by linarith) (by linarith)]
      have htdeg : toDeg (θ - 2 * Real.pi) = b - 360 := by
        rw [hθdef]
        unfold toDeg toRad
        field_simp
        ring
      rw [htdeg]
      have hb180 : 180 < b := by
        rw [hθdef] at hcase
        unfold toRad at hcase
        rw [lt_div_iff h180] at hcase
        exact (mul_lt_mul_right hπ).1 (by linarith)
      rw [show b - 360 + 360 = b from by ring]
      unfold jsMod rtrunc
      rw [if_pos (show (0:ℝ) ≤ b / 360 from div_nonneg (by linarith) (by norm_num))]
      rw [show ⌊b / 360⌋ = 0 from Int.floor_eq_iff.2
        ⟨by push_cast; exact div_nonneg (by linarith) (by norm_num),
         by push_cast; rw [div_lt_iff (by norm_num : (0:ℝ) < 360)]; linarith⟩]
      push_cast
      ring
  · -- distance round trip
    simp only [getDist]
    have hdf : toRad (toDeg φ2 - lat) = φ2 - φ1 := by
      rw [toRad_sub, toRad_toDeg, ← hφ1def]
    rw [hdf, hdl, toRad_toDeg, ← hφ1def]
    have hA : Real.sin ((φ2 - φ1) / 2) ^ 2 +
        Real.cos φ1 * Real.cos φ2 * Real.sin (L / 2) ^ 2 = Real.sin (δ / 2) ^ 2 := by
      rw [sin_half_sq, sin_half_sq, sin_half_sq, Real.cos_sub, hsinφ2, hcL]
      field_simp
      ring
    rw [hA]
    rw [show (1 : ℝ) - Real.sin (δ / 2) ^ 2 = Real.cos (δ / 2) ^ 2 from by
      linarith [Real.sin_sq_add_cos_sq (δ / 2)]]
    rw [Real.sqrt_sq (Real.sin_nonneg_of_nonneg_of_le_pi (by linarith) (by linarith))]
    rw [Real.sqrt_sq hcδhalf.le]
    rw [atan2_sin_cos (δ / 2) (by linarith) (by linarith)]
    rw [hδdef]
    ring

/-- The position update of the movement block is exactly the forward geodesic
projection destination, applied at the pre-tick position with the post-turn
heading and the step distance groundSpeed * dt * simMult. -/
lemma moveStepWith_uses_destination (M : ℝ) (p : DronePhysics) (a b c dt : ℝ)
    (harm : p.armed = true)
    (hmode : p.flightMode = FlightMode.AUTO ∨ p.flightMode = FlightMode.RTL ∨
      p.flightMode = FlightMode.GUIDED ∨ p.flightMode = FlightMode.LAND)
    (hmove : 0 < 15 * dt * M) :
    (moveStepWith M p a b c dt).lat =
      (destination p.lat p.lng (moveStepWith M p a b c dt).heading (15 * dt * M)).lat ∧
    (moveStepWith M p a b c dt).lng =
      (destination p.lat p.lng (moveStepWith M p a b c dt).heading (15 * dt * M)).lng := by
  simp only [moveStepWith, destination, harm, if_true]
  split_ifs with h1 h2 <;> simp_all

/-- C9: under the real-number reading of the JS doubles the geodesy round
trip is exact, not merely approximate: for every origin within 89 degrees of
latitude of the equator, bearing b in [0, 360) and distance 0 < d ≤ 50 km,
the initial bearing computed by getBearing from the origin to the forward
projected point destination(origin, b, d) equals b, and the haversine
distance computed by getDist to that point equals d, where destination is
the forward geodesic projection used by the integrator. -/
theorem C9_geodesy_roundtrip (lat lng b d : ℝ) (hlat : |lat| ≤ 89)
    (hb0 : 0 ≤ b) (hb1 : b < 360) (hd0 : 0 < d) (hd1 : d ≤ 50000) :
    getBearing lat lng (destination lat lng b d).lat (destination lat lng b d).lng = b ∧
    getDist lat lng (destination lat lng b d).lat (destination lat lng b d).lng = d :=
  roundtrip_deg lat lng b d _ _ rfl rfl hlat hb0 hb1 hd0 hd1

theorem C9_geodesy_roundtrip_witness :
    (|(0 : ℝ)| ≤ 89 ∧ (0 : ℝ) ≤ 90 ∧ (90 : ℝ) < 360 ∧ (0 : ℝ) < 1000 ∧
      (1000 : ℝ) ≤ 50000) ∧
    (getBearing 0 0 (destination 0 0 90 1000).lat (destination 0 0 90 1000).lng = 90 ∧
      getDist 0 0 (destination 0 0 90 1000).lat (destination 0 0 90 1000).lng = 1000) :=
  ⟨⟨by norm_num, by norm_num, by norm_num, by norm_num, by norm_num⟩,
    C9_geodesy_roundtrip 0 0 90 1000 (by norm_num) (by norm_num) (by norm_num)
      (by norm_num) (by norm_num)⟩

end MissionPlanner
